import Mathlib

/-!
Shallow embedding of the ROICaseBuilder data-reconciliation and calculation
engine, written from the repository sources:

* `backend/orchestrator/merge.py` (merge engine),
* `_archive_backend/engine/calculator.py` (calculation engine),
* `_archive_backend/engine/result.py` (result tree),
* `_archive_backend/methodology/schema.py` (methodology configuration),
* `backend/kpi_library/formulas.py` and `registry.py` (formula library),
* `backend/models/audit.py`, `_archive_backend/models/company_data.py`,
  `_archive_backend/models/enums.py` (data model).

Modelling conventions: Python floats are modelled as exact rationals (`ℚ`);
Python exceptions as `Except String`; dynamic `Any` values carried by a
`DataPoint` as the sum type `Value`, whose `other` constructor stands for any
value on which `float(v)` and numeric comparison raise (for example a
non-numeric string).  Wall-clock timestamps are audit metadata only (the spec
requires they never affect a computed value) and are omitted.
-/

namespace ROICase

/-- Confidence tier of a data source (`backend/models/enums.py`,
`DataSourceTier`). -/
inductive DataSourceTier where
  | company_reported
  | industry_benchmark
  | cross_industry
  | estimated
deriving DecidableEq

/-- String value of a `DataSourceTier` enum member. -/
def tierValue : DataSourceTier → String
  | .company_reported => "company_reported"
  | .industry_benchmark => "industry_benchmark"
  | .cross_industry => "cross_industry"
  | .estimated => "estimated"

/-- Provenance category of a source (`backend/models/enums.py`,
`DataSourceType`). -/
inductive DataSourceType where
  | valyu_sec_filing
  | valyu_financial_metrics
  | valyu_earnings
  | valyu_income_statement
  | valyu_balance_sheet
  | firecrawl_crunchbase
  | firecrawl_pitchbook
  | websearch_benchmark
  | websearch_industry_report
  | manual_override
deriving DecidableEq

/-- String value of a `DataSourceType` enum member. -/
def sourceTypeValue : DataSourceType → String
  | .valyu_sec_filing => "valyu_sec_filing"
  | .valyu_financial_metrics => "valyu_financial_metrics"
  | .valyu_earnings => "valyu_earnings"
  | .valyu_income_statement => "valyu_income_statement"
  | .valyu_balance_sheet => "valyu_balance_sheet"
  | .firecrawl_crunchbase => "firecrawl_crunchbase"
  | .firecrawl_pitchbook => "firecrawl_pitchbook"
  | .websearch_benchmark => "websearch_benchmark"
  | .websearch_industry_report => "websearch_industry_report"
  | .manual_override => "manual_override"

/-- Freshness indicator (`backend/models/enums.py`, `DataFreshness`). -/
inductive DataFreshness where
  | green
  | yellow
  | red
deriving DecidableEq

/-- Scenario band (`backend/models/enums.py`, `Scenario`). -/
inductive Scenario where
  | conservative
  | moderate
  | aggressive
deriving DecidableEq, Fintype

/-- A dynamically typed Python value carried by a `DataPoint` (`value: Any`).
`num q` is a numeric value; `other s` stands for any value on which `float(v)`
raises `TypeError`/`ValueError` and on which numeric comparison raises
`TypeError` (for example, a non-numeric string). -/
inductive Value where
  | num (q : ℚ)
  | other (s : String)
deriving DecidableEq

/-- Models Python `float(v)`: succeeds exactly on numeric values. -/
def pyFloat : Value → Option ℚ
  | .num q => some q
  | .other _ => none

/-- Models using a value as a numeric operand (for example comparing it with
`0`), which raises `TypeError` on non-numeric values. -/
def pyNum : Value → Except String ℚ
  | .num q => .ok q
  | .other _ => .error "TypeError: unsupported operand type"

/-- Source attribution of a data point (`backend/models/audit.py`,
`SourceAttribution`).  The retrieval timestamp is metadata that never enters
any computation and is omitted. -/
structure SourceAttribution where
  source_type : DataSourceType
  source_url : Option String := none
  source_label : String := ""
  data_date : Option String := none
  api_query : Option String := none
  raw_value : Option Value := none
  relevance_score : Option ℚ := none
deriving DecidableEq

/-- A single observed value with audit metadata (`backend/models/audit.py`,
`DataPoint`). -/
structure DataPoint where
  value : Value
  confidence_tier : DataSourceTier
  confidence_score : ℚ
  source : SourceAttribution
  freshness : DataFreshness := .green
  notes : Option String := none
  is_override : Bool := false
  override_reason : Option String := none
deriving DecidableEq

/-- The fixed set of optional `DataPoint` fields of `CompanyData`
(`_archive_backend/models/company_data.py`), everything except the identity
fields `company_name` and `industry`. -/
inductive FieldName where
  | annual_revenue
  | online_revenue
  | revenue_growth_yoy
  | gross_margin
  | operating_margin
  | net_income
  | current_conversion_rate
  | current_aov
  | order_volume
  | current_churn_rate
  | customer_count
  | revenue_per_customer
  | current_support_contacts
  | cost_per_contact
  | current_nps
  | customer_lifetime_value
  | engagement_cost
  | total_funding
  | estimated_valuation
deriving DecidableEq

/-- Python attribute name of a data field. -/
def fieldNameStr : FieldName → String
  | .annual_revenue => "annual_revenue"
  | .online_revenue => "online_revenue"
  | .revenue_growth_yoy => "revenue_growth_yoy"
  | .gross_margin => "gross_margin"
  | .operating_margin => "operating_margin"
  | .net_income => "net_income"
  | .current_conversion_rate => "current_conversion_rate"
  | .current_aov => "current_aov"
  | .order_volume => "order_volume"
  | .current_churn_rate => "current_churn_rate"
  | .customer_count => "customer_count"
  | .revenue_per_customer => "revenue_per_customer"
  | .current_support_contacts => "current_support_contacts"
  | .cost_per_contact => "cost_per_contact"
  | .current_nps => "current_nps"
  | .customer_lifetime_value => "customer_lifetime_value"
  | .engagement_cost => "engagement_cost"
  | .total_funding => "total_funding"
  | .estimated_valuation => "estimated_valuation"

/-- The data fields of `CompanyData`, in dataclass declaration order.  This is
the iteration order of the reflective `fields(CompanyData)` loop in
`merge_company_data` after removing `_NON_DATA_FIELDS`. -/
def dataFieldNames : List FieldName :=
  [.annual_revenue, .online_revenue, .revenue_growth_yoy, .gross_margin,
   .operating_margin, .net_income, .current_conversion_rate, .current_aov,
   .order_volume, .current_churn_rate, .customer_count, .revenue_per_customer,
   .current_support_contacts, .cost_per_contact, .current_nps,
   .customer_lifetime_value, .engagement_cost, .total_funding,
   .estimated_valuation]

/-- The unified per-company record
(`_archive_backend/models/company_data.py`, `CompanyData`): identity plus a
fixed named set of optional `DataPoint` fields, here represented as a function
from `FieldName`. -/
structure CompanyData where
  company_name : String
  industry : String
  data : FieldName → Option DataPoint

/-- Models `getattr(record, field_name, None)` / `CompanyData.get`. -/
def CompanyData.get (rec : CompanyData) (f : FieldName) : Option DataPoint :=
  rec.data f

/-- Models `CompanyData.available_fields`: names of all fields holding a
`DataPoint`. -/
def CompanyData.availableFields (rec : CompanyData) : List FieldName :=
  dataFieldNames.filter (fun f => (rec.data f).isSome)

/-- Models `setattr(record, field_name, dp)` on a data field. -/
def setField (rec : CompanyData) (f : FieldName) (dp : DataPoint) : CompanyData :=
  { rec with data := Function.update rec.data f (some dp) }

/-- Confidence tier ordering from `merge.py` (`_TIER_RANK`): higher index =
higher confidence. -/
def tierRank : DataSourceTier → Nat
  | .estimated => 0
  | .cross_industry => 1
  | .industry_benchmark => 2
  | .company_reported => 3

/-- Conflict audit record (`merge.py`, `ConflictEntry`). -/
structure ConflictEntry where
  field_name : FieldName
  primary_value : Value
  primary_source : String
  primary_tier : DataSourceTier
  secondary_value : Value
  secondary_source : String
  secondary_tier : DataSourceTier
  resolution : String
  chosen_value : Value
  flagged_for_cp : Bool
deriving DecidableEq

/-- Percentage discrepancy between two numeric values (`merge.py`,
`_discrepancy_pct`). -/
def discrepancyPct (a b : ℚ) : ℚ :=
  if a = 0 ∧ b = 0 then 0
  else
    let denom := max |a| |b|
    if denom = 0 then 0 else |a - b| / denom

/-- The `DataPoint` with the higher confidence tier (`merge.py`,
`_pick_winner`): ties keep the first argument (the currently-merged value). -/
def pickWinner (dp_a dp_b : DataPoint) : DataPoint :=
  if tierRank dp_a.confidence_tier ≥ tierRank dp_b.confidence_tier then dp_a
  else dp_b

/-- The `ConflictEntry` recorded by `merge_company_data` when both the
currently-merged record (`existing_dp`) and a secondary record (`sec_dp`)
carry a value for field `f`.  The numeric-discrepancy check is inside a
`try` in the source: when either `float(value)` conversion raises, the flag
stays `false`. -/
def conflictFor (f : FieldName) (existing_dp sec_dp : DataPoint) : ConflictEntry :=
  let winner := pickWinner existing_dp sec_dp
  let loser :=
    if tierRank existing_dp.confidence_tier ≥ tierRank sec_dp.confidence_tier
    then sec_dp else existing_dp
  let flagged :=
    match pyFloat existing_dp.value, pyFloat sec_dp.value with
    | some v1, some v2 => decide (discrepancyPct v1 v2 > 1/10)
    | _, _ => false
  { field_name := f
    primary_value := existing_dp.value
    primary_source := sourceTypeValue existing_dp.source.source_type
    primary_tier := existing_dp.confidence_tier
    secondary_value := sec_dp.value
    secondary_source := sourceTypeValue sec_dp.source.source_type
    secondary_tier := sec_dp.confidence_tier
    resolution :=
      "Chose " ++ tierValue winner.confidence_tier ++ " (rank " ++
      toString (tierRank winner.confidence_tier) ++ ") over " ++
      tierValue loser.confidence_tier ++ " (rank " ++
      toString (tierRank loser.confidence_tier) ++ ")"
    chosen_value := winner.value
    flagged_for_cp := flagged }

/-- Body of the inner field loop of `merge_company_data` for one secondary:
skip when the secondary has no value, fill gaps without a conflict, otherwise
record a conflict and advance the merged value to the winner. -/
def processField (sec : CompanyData) (st : CompanyData × List ConflictEntry)
    (f : FieldName) : CompanyData × List ConflictEntry :=
  match sec.data f with
  | none => st
  | some sec_dp =>
    match st.1.data f with
    | none => (setField st.1 f sec_dp, st.2)
    | some existing_dp =>
      (setField st.1 f (pickWinner existing_dp sec_dp),
       st.2 ++ [conflictFor f existing_dp sec_dp])

/-- Merging one secondary record into the currently-merged record: the inner
loop of `merge_company_data` over all data fields, returning the updated
merged record and the conflicts recorded for this secondary. -/
def mergeStep (merged sec : CompanyData) : CompanyData × List ConflictEntry :=
  dataFieldNames.foldl (processField sec) (merged, [])

/-- The seeding phase of `merge_company_data`: a fresh record carrying only
the primary record identity, then each of the primary record data fields
copied when present. -/
def seedRecord (primary : CompanyData) : CompanyData :=
  dataFieldNames.foldl
    (fun m f =>
      match primary.data f with
      | some v => setField m f v
      | none => m)
    { company_name := primary.company_name
      industry := primary.industry
      data := fun _ => none }

/-- One step of the primary-seeding copy loop of `merge_company_data`. -/
def copyStep (primary : CompanyData) (m : CompanyData) (f : FieldName) :
    CompanyData :=
  match primary.data f with
  | some v => setField m f v
  | none => m

/-- Holds exactly when an `Except` computation returned a value rather than
raising. -/
def exceptIsOk {α : Type} : Except String α → Bool
  | .ok _ => true
  | .error _ => false

/-- The merge engine (`merge.py`, `merge_company_data`): seed from the
primary record, then fold each secondary in input order, accumulating the
conflict trail. -/
def mergeCompanyData (primary : CompanyData) (secondaries : List CompanyData) :
    CompanyData × List ConflictEntry :=
  secondaries.foldl
    (fun st sec =>
      let r := mergeStep st.1 sec
      (r.1, st.2 ++ r.2))
    (seedRecord primary, [])

/-- Scenario-specific benchmark values for a KPI
(`_archive_backend/methodology/schema.py`, `BenchmarkRanges`). -/
structure BenchmarkRanges where
  conservative : ℚ
  moderate : ℚ
  aggressive : ℚ
deriving DecidableEq

/-- Models `getattr(kpi_config.benchmark_ranges, scenario.value)` in the
engine. -/
def benchmarkFor (br : BenchmarkRanges) : Scenario → ℚ
  | .conservative => br.conservative
  | .moderate => br.moderate
  | .aggressive => br.aggressive

/-- Configuration for a single KPI within a methodology (`schema.py`,
`KPIConfig`). -/
structure KPIConfig where
  id : String
  label : Option String := none
  weight : ℚ
  formula : String
  inputs : List FieldName
  benchmark_ranges : BenchmarkRanges
  benchmark_source : String
  benchmark_source_url : Option String := none
  enabled : Bool := true
deriving DecidableEq

/-- Multipliers applied based on data source quality tier (`schema.py`,
`ConfidenceDiscounts`), with the source defaults. -/
structure ConfidenceDiscounts where
  company_reported : ℚ := 1
  industry_benchmark : ℚ := 8/10
  cross_industry : ℚ := 6/10
  estimated : ℚ := 4/10
deriving DecidableEq

/-- Models `ConfidenceDiscounts.get_discount(tier_value)`, a `getattr` on the
tier enum string. -/
def ConfidenceDiscounts.getDiscount (d : ConfidenceDiscounts) :
    DataSourceTier → ℚ
  | .company_reported => d.company_reported
  | .industry_benchmark => d.industry_benchmark
  | .cross_industry => d.cross_industry
  | .estimated => d.estimated

/-- Top-level methodology configuration (`schema.py`, `MethodologyConfig`). -/
structure MethodologyConfig where
  id : String
  name : String
  version : String
  applicable_industries : List String
  service_type : String
  kpis : List KPIConfig
  realization_curve : List ℚ
  confidence_discounts : ConfidenceDiscounts := {}
  enabled : Bool := true

/-- Models `MethodologyConfig.enabled_kpis()`. -/
def enabledKpis (cfg : MethodologyConfig) : List KPIConfig :=
  cfg.kpis.filter (fun k => k.enabled)

/-- Models `MethodologyConfig.required_inputs()`: the set of all `CompanyData`
fields required by enabled KPIs.  Python builds a `set`; it is modelled as a
deduplicated list (only membership and cardinality are ever used). -/
def requiredInputs (cfg : MethodologyConfig) : List FieldName :=
  ((enabledKpis cfg).flatMap (fun k => k.inputs)).dedup

/-- A KPI library entry (`backend/kpi_library/registry.py`, `KPIDefinition`).
The formula function receives the values of `required_inputs` in declaration
order plus the (always numeric) benchmark value, and models a Python
exception as `Except.error` with the exception message. -/
structure KPIDefinition where
  id : String
  label : String
  description : String
  required_inputs : List FieldName
  benchmark_input : String
  formula_fn : List Value → ℚ → Except String ℚ
  unit : String := "currency"
  category : String := "revenue"

/-- Formula `conversion_rate_lift` (`backend/kpi_library/formulas.py`,
`calc_conversion_rate_lift`). -/
def calcConversionRateLift (args : List Value) (lift_percentage : ℚ) :
    Except String ℚ :=
  match args with
  | [v] =>
    (pyNum v).bind fun online_revenue =>
      if online_revenue < 0 then .error "online_revenue cannot be negative"
      else if lift_percentage < 0 ∨ 1 < lift_percentage then
        .error "lift_percentage must be 0-1.0"
      else .ok (online_revenue * lift_percentage)
  | _ => .error "TypeError: unexpected arguments"

/-- Formula `aov_increase` (`formulas.py`, `calc_aov_increase`). -/
def calcAovIncrease (args : List Value) (lift_percentage : ℚ) :
    Except String ℚ :=
  match args with
  | [v1, v2] =>
    (pyNum v1).bind fun order_volume =>
      if order_volume < 0 then .error "order_volume cannot be negative"
      else
        (pyNum v2).bind fun current_aov =>
          if current_aov < 0 then .error "current_aov cannot be negative"
          else if lift_percentage < 0 ∨ 1 < lift_percentage then
            .error "lift_percentage must be 0-1.0"
          else
            let new_aov := current_aov * (1 + lift_percentage)
            .ok (order_volume * (new_aov - current_aov))
  | _ => .error "TypeError: unexpected arguments"

/-- Formula `churn_reduction` (`formulas.py`, `calc_churn_reduction`). -/
def calcChurnReduction (args : List Value) (reduction_percentage : ℚ) :
    Except String ℚ :=
  match args with
  | [v1, v2, v3] =>
    (pyNum v1).bind fun current_churn_rate =>
      if current_churn_rate < 0 ∨ 1 < current_churn_rate then
        .error "current_churn_rate must be 0-1.0"
      else
        (pyNum v2).bind fun customer_count =>
          if customer_count < 0 then .error "customer_count cannot be negative"
          else
            (pyNum v3).bind fun revenue_per_customer =>
              if revenue_per_customer < 0 then
                .error "revenue_per_customer cannot be negative"
              else if reduction_percentage < 0 ∨ 1 < reduction_percentage then
                .error "reduction_percentage must be 0-1.0"
              else
                let customers_at_risk := current_churn_rate * customer_count
                let customers_saved := customers_at_risk * reduction_percentage
                .ok (customers_saved * revenue_per_customer)
  | _ => .error "TypeError: unexpected arguments"

/-- Formula `support_cost_savings` (`formulas.py`,
`calc_support_cost_savings`). -/
def calcSupportCostSavings (args : List Value) (reduction_percentage : ℚ) :
    Except String ℚ :=
  match args with
  | [v1, v2] =>
    (pyNum v1).bind fun current_support_contacts =>
      if current_support_contacts < 0 then
        .error "current_support_contacts cannot be negative"
      else
        (pyNum v2).bind fun cost_per_contact =>
          if cost_per_contact < 0 then .error "cost_per_contact cannot be negative"
          else if reduction_percentage < 0 ∨ 1 < reduction_percentage then
            .error "reduction_percentage must be 0-1.0"
          else
            .ok (current_support_contacts * reduction_percentage * cost_per_contact)
  | _ => .error "TypeError: unexpected arguments"

/-- Formula `nps_referral_revenue` (`formulas.py`,
`calc_nps_referral_revenue`). -/
def calcNpsReferralRevenue (args : List Value) (nps_point_improvement : ℚ) :
    Except String ℚ :=
  match args with
  | [v] =>
    (pyNum v).bind fun annual_revenue =>
      if annual_revenue < 0 then .error "annual_revenue cannot be negative"
      else if nps_point_improvement < 0 then
        .error "nps_point_improvement cannot be negative"
      else .ok (annual_revenue * (nps_point_improvement / 7) * (1/100))
  | _ => .error "TypeError: unexpected arguments"

/-- Registry entry for `conversion_rate_lift`. -/
def conversionRateLiftDef : KPIDefinition :=
  { id := "conversion_rate_lift"
    label := "Conversion Rate Improvement"
    description := "Incremental revenue from higher conversion rates after UX/CX redesign."
    required_inputs := [.online_revenue]
    benchmark_input := "lift_percentage"
    formula_fn := calcConversionRateLift
    unit := "currency"
    category := "revenue" }

/-- Registry entry for `aov_increase`. -/
def aovIncreaseDef : KPIDefinition :=
  { id := "aov_increase"
    label := "Average Order Value Increase"
    description := "Revenue gained from higher average order values."
    required_inputs := [.order_volume, .current_aov]
    benchmark_input := "lift_percentage"
    formula_fn := calcAovIncrease
    unit := "currency"
    category := "revenue" }

/-- Registry entry for `churn_reduction`. -/
def churnReductionDef : KPIDefinition :=
  { id := "churn_reduction"
    label := "Revenue Saved from Churn Reduction"
    description := "Revenue retained by reducing customer churn."
    required_inputs := [.current_churn_rate, .customer_count, .revenue_per_customer]
    benchmark_input := "reduction_percentage"
    formula_fn := calcChurnReduction
    unit := "currency"
    category := "retention" }

/-- Registry entry for `support_cost_savings`. -/
def supportCostSavingsDef : KPIDefinition :=
  { id := "support_cost_savings"
    label := "Support Cost Savings"
    description := "Cost savings from reduced support ticket volume."
    required_inputs := [.current_support_contacts, .cost_per_contact]
    benchmark_input := "reduction_percentage"
    formula_fn := calcSupportCostSavings
    unit := "currency"
    category := "cost_savings" }

/-- Registry entry for `nps_referral_revenue`. -/
def npsReferralRevenueDef : KPIDefinition :=
  { id := "nps_referral_revenue"
    label := "NPS-Linked Referral Revenue"
    description := "Revenue growth attributable to NPS improvement via referrals."
    required_inputs := [.annual_revenue]
    benchmark_input := "nps_point_improvement"
    formula_fn := calcNpsReferralRevenue
    unit := "currency"
    category := "revenue" }

/-- The KPI registry populated at import time by the five `@register_kpi`
decorators in `formulas.py` (`registry.py`, `get_kpi`). -/
def registryGet (kpi_id : String) : Option KPIDefinition :=
  if kpi_id = "conversion_rate_lift" then some conversionRateLiftDef
  else if kpi_id = "aov_increase" then some aovIncreaseDef
  else if kpi_id = "churn_reduction" then some churnReductionDef
  else if kpi_id = "support_cost_savings" then some supportCostSavingsDef
  else if kpi_id = "nps_referral_revenue" then some npsReferralRevenueDef
  else none

/-- Complete audit trail for a single KPI calculation
(`_archive_backend/engine/result.py`, `KPIAuditEntry`). -/
structure KPIAuditEntry where
  kpi_id : String
  kpi_label : String
  formula_description : String
  inputs_used : List (FieldName × Value)
  input_tiers : List (FieldName × DataSourceTier)
  benchmark_value : ℚ
  benchmark_source : String
  raw_impact : ℚ
  confidence_discount : ℚ
  adjusted_impact : ℚ
  weight : ℚ
  weighted_impact : ℚ
  category : String
  skipped : Bool := false
  skip_reason : Option String := none
deriving DecidableEq

/-- Single year in the multi-year projection (`result.py`,
`YearProjection`). -/
structure YearProjection where
  year : Nat
  realization_percentage : ℚ
  projected_impact : ℚ
  cumulative_impact : ℚ
deriving DecidableEq

/-- Results for a single scenario (`result.py`, `ScenarioResult`).  The
`impact_by_category` dict is modelled as a total function from category
strings. -/
structure ScenarioResult where
  scenario : Scenario
  kpi_results : List KPIAuditEntry
  total_annual_impact : ℚ
  total_annual_impact_unweighted : ℚ
  impact_by_category : String → ℚ
  year_projections : List YearProjection
  cumulative_3yr_impact : ℚ
  roi_percentage : Option ℚ := none
  roi_multiple : Option ℚ := none
  engagement_cost : Option ℚ := none
  skipped_kpis : List String := []

/-- Top-level result object (`result.py`, `CalculationResult`).  The
per-scenario dict (whose keys are always exactly the three scenarios) is
modelled as a total function from `Scenario`. -/
structure CalculationResult where
  company_name : String
  industry : String
  methodology_id : String
  methodology_version : String
  scenarios : Scenario → ScenarioResult
  data_completeness : ℚ
  missing_inputs : List FieldName
  available_inputs : List FieldName
  warnings : List String := []

/-- Models the Python truthiness idiom `kpi_config.label or fallback`: both
`None` and the empty string fall through to the fallback. -/
def pyOr (o : Option String) (fallback : String) : String :=
  match o with
  | some s => if s = "" then fallback else s
  | none => fallback

/-- Message of a missing-required-inputs skip
(`calculator.py`, `_calculate_single_kpi`). -/
def missingMsg (missing : List FieldName) : String :=
  "Missing required inputs: " ++
    String.intercalate ", " (missing.map fieldNameStr)

/-- A skipped KPI audit entry (`calculator.py`,
`CalculationEngine._skipped_entry`). -/
def skippedEntry (kcfg : KPIConfig) (reason : String) : KPIAuditEntry :=
  { kpi_id := kcfg.id
    kpi_label := pyOr kcfg.label kcfg.id
    formula_description := kcfg.formula
    inputs_used := []
    input_tiers := []
    benchmark_value := 0
    benchmark_source := kcfg.benchmark_source
    raw_impact := 0
    confidence_discount := 0
    adjusted_impact := 0
    weight := kcfg.weight
    weighted_impact := 0
    category := "unknown"
    skipped := true
    skip_reason := some reason }

/-- The input-gathering loop of `_calculate_single_kpi`: for each required
field, either collect its `DataPoint` or record it as missing, preserving the
`required_inputs` order of both lists. -/
def gatherInputs (rec : CompanyData) (reqs : List FieldName) :
    List (FieldName × DataPoint) × List FieldName :=
  (reqs.filterMap (fun f => (rec.data f).map (fun dp => (f, dp))),
   reqs.filter (fun f => (rec.data f).isNone))

/-- The minimum confidence multiplier across all inputs (`calculator.py`,
`CalculationEngine._compute_confidence`): Python `min` over the mapped
discounts, with the `estimated` discount as the zero-input default. -/
def computeConfidence (dps : List DataPoint) (cfg : MethodologyConfig) : ℚ :=
  match dps.map (fun dp => cfg.confidence_discounts.getDiscount dp.confidence_tier) with
  | [] => cfg.confidence_discounts.estimated
  | m :: ms => ms.foldl min m

/-- Calculate a single KPI and produce its audit entry (`calculator.py`,
`CalculationEngine._calculate_single_kpi`). -/
def calcSingleKpi (rec : CompanyData) (kcfg : KPIConfig)
    (cfg : MethodologyConfig) (s : Scenario) : KPIAuditEntry :=
  match registryGet kcfg.id with
  | none => skippedEntry kcfg ("KPI " ++ kcfg.id ++ " not found in registry")
  | some kdef =>
    let gathered := gatherInputs rec kdef.required_inputs
    match gathered.2 with
    | f0 :: rest => skippedEntry kcfg (missingMsg (f0 :: rest))
    | [] =>
      let benchmark_value := benchmarkFor kcfg.benchmark_ranges s
      match kdef.formula_fn (gathered.1.map (fun p => p.2.value)) benchmark_value with
      | .error e => skippedEntry kcfg ("Formula error: " ++ e)
      | .ok raw_impact =>
        let confidence_multiplier :=
          computeConfidence (gathered.1.map (fun p => p.2)) cfg
        let adjusted_impact := raw_impact * confidence_multiplier
        let weighted_impact := adjusted_impact * kcfg.weight
        { kpi_id := kcfg.id
          kpi_label := pyOr kcfg.label kdef.label
          formula_description := kcfg.formula
          inputs_used := gathered.1.map (fun p => (p.1, p.2.value))
          input_tiers := gathered.1.map (fun p => (p.1, p.2.confidence_tier))
          benchmark_value := benchmark_value
          benchmark_source := kcfg.benchmark_source
          raw_impact := raw_impact
          confidence_discount := confidence_multiplier
          adjusted_impact := adjusted_impact
          weight := kcfg.weight
          weighted_impact := weighted_impact
          category := kdef.category
          skipped := false
          skip_reason := none }

/-- Multi-year projection loop (`calculator.py`,
`CalculationEngine._project_multi_year`), with explicit year index and
running cumulative accumulator. -/
def projectAux (total : ℚ) : List ℚ → Nat → ℚ → List YearProjection
  | [], _, _ => []
  | pct :: rest, i, cumulative =>
    let year_impact := total * pct
    { year := i + 1
      realization_percentage := pct
      projected_impact := year_impact
      cumulative_impact := cumulative + year_impact }
      :: projectAux total rest (i + 1) (cumulative + year_impact)

/-- Models `CalculationEngine._project_multi_year`. -/
def projectMultiYear (total_annual_impact : ℚ) (realization_curve : List ℚ) :
    List YearProjection :=
  projectAux total_annual_impact realization_curve 0 0

/-- The per-scenario KPI audit entries, one per enabled KPI in configuration
order (the KPI loop of `CalculationEngine._run_scenario`). -/
def scenEntries (rec : CompanyData) (cfg : MethodologyConfig) (s : Scenario) :
    List KPIAuditEntry :=
  (enabledKpis cfg).map (fun k => calcSingleKpi rec k cfg s)

/-- Ids of the skipped entries, collected in entry order
(`_run_scenario`). -/
def scenSkipped (rec : CompanyData) (cfg : MethodologyConfig) (s : Scenario) :
    List String :=
  ((scenEntries rec cfg s).filter (fun e => e.skipped)).map (fun e => e.kpi_id)

/-- Sum of `adjusted_impact` over non-skipped entries (`_run_scenario`,
`total_unweighted`). -/
def scenTotalUnweighted (rec : CompanyData) (cfg : MethodologyConfig)
    (s : Scenario) : ℚ :=
  (((scenEntries rec cfg s).filter (fun e => !e.skipped)).map
    (fun e => e.adjusted_impact)).sum

/-- Sum of `weighted_impact` over non-skipped entries (`_run_scenario`,
`total_weighted`). -/
def scenTotalWeighted (rec : CompanyData) (cfg : MethodologyConfig)
    (s : Scenario) : ℚ :=
  (((scenEntries rec cfg s).filter (fun e => !e.skipped)).map
    (fun e => e.weighted_impact)).sum

/-- Adjusted impact grouped by KPI category over non-skipped entries
(`_run_scenario`, `impact_by_category`), as a total function on category
strings (absent categories map to the dict-default 0). -/
def scenImpactByCategory (rec : CompanyData) (cfg : MethodologyConfig)
    (s : Scenario) : String → ℚ :=
  fun cat =>
    (((scenEntries rec cfg s).filter
        (fun e => !e.skipped && e.category == cat)).map
      (fun e => e.adjusted_impact)).sum

/-- The year projections of a scenario (`_run_scenario`). -/
def scenYearProjections (rec : CompanyData) (cfg : MethodologyConfig)
    (s : Scenario) : List YearProjection :=
  projectMultiYear (scenTotalUnweighted rec cfg s) cfg.realization_curve

/-- Error message of the uncaught `TypeError` raised by
`engagement_cost_dp.value > 0` when the engagement cost value is
non-numeric: this comparison in `_run_scenario` is outside any `try`. -/
def engagementTypeErrorMsg : String :=
  "TypeError: comparison not supported between engagement_cost value and int"

/-- Run a single scenario (`calculator.py`,
`CalculationEngine._run_scenario`).  The only fallible step is the
`engagement_cost_dp.value > 0` comparison, which raises (propagates as
`Except.error`) on a non-numeric engagement cost value. -/
def runScenario (rec : CompanyData) (cfg : MethodologyConfig) (s : Scenario) :
    Except String ScenarioResult :=
  let year_projections := scenYearProjections rec cfg s
  let base : ScenarioResult :=
    { scenario := s
      kpi_results := scenEntries rec cfg s
      total_annual_impact := scenTotalWeighted rec cfg s
      total_annual_impact_unweighted := scenTotalUnweighted rec cfg s
      impact_by_category := scenImpactByCategory rec cfg s
      year_projections := year_projections
      cumulative_3yr_impact :=
        (year_projections.map (fun p => p.projected_impact)).sum
      roi_percentage := none
      roi_multiple := none
      engagement_cost := none
      skipped_kpis := scenSkipped rec cfg s }
  match rec.data FieldName.engagement_cost with
  | none => .ok base
  | some dp =>
    match dp.value with
    | .num c =>
      if c > 0 then
        .ok { base with
              roi_percentage :=
                some ((scenTotalUnweighted rec cfg s - c) / c * 100)
              roi_multiple := some (scenTotalUnweighted rec cfg s / c)
              engagement_cost := some c }
      else .ok base
    | .other _ => .error engagementTypeErrorMsg

/-- Alphabetical order of the data field names, the order produced by Python
`sorted()` on the attribute-name strings. -/
def alphaFieldNames : List FieldName :=
  [.annual_revenue, .cost_per_contact, .current_aov, .current_churn_rate,
   .current_conversion_rate, .current_nps, .current_support_contacts,
   .customer_count, .customer_lifetime_value, .engagement_cost,
   .estimated_valuation, .gross_margin, .net_income, .online_revenue,
   .operating_margin, .order_volume, .revenue_growth_yoy,
   .revenue_per_customer, .total_funding]

/-- The full ROI calculation (`calculator.py`,
`CalculationEngine.calculate`): completeness pre-step, then the three fixed
scenarios in order.  A scenario raising (non-numeric engagement cost)
propagates out, as in the source. -/
def calculate (rec : CompanyData) (cfg : MethodologyConfig) :
    Except String CalculationResult :=
  let required := requiredInputs cfg
  let available := rec.availableFields
  let missing := required.filter (fun f => !(decide (f ∈ available)))
  let completeness : ℚ :=
    if required.length = 0 then 1
    else ((required.filter (fun f => !(decide (f ∈ missing)))).length : ℚ) /
      (required.length : ℚ)
  let warnings : List String :=
    if missing.isEmpty then []
    else ["Missing inputs: " ++
          String.intercalate ", "
            ((alphaFieldNames.filter (fun f => decide (f ∈ missing))).map
              fieldNameStr) ++
          ". KPIs requiring these will be skipped."]
  match runScenario rec cfg .conservative with
  | .error e => .error e
  | .ok rc =>
    match runScenario rec cfg .moderate with
    | .error e => .error e
    | .ok rm =>
      match runScenario rec cfg .aggressive with
      | .error e => .error e
      | .ok ra =>
        .ok { company_name := rec.company_name
              industry := rec.industry
              methodology_id := cfg.id
              methodology_version := cfg.version
              scenarios := fun s =>
                match s with
                | .conservative => rc
                | .moderate => rm
                | .aggressive => ra
              data_completeness := completeness
              missing_inputs :=
                alphaFieldNames.filter (fun f => decide (f ∈ missing))
              available_inputs :=
                alphaFieldNames.filter
                  (fun f => decide (f ∈ available) && decide (f ∈ required))
              warnings := warnings }

/-- Eager validation of a methodology (`schema.py` pydantic validators):
field bounds, benchmark ordering, registry resolution of every KPI id,
realization-curve bounds and monotonicity, and the enabled-weight sum
tolerance.  The engine is only ever invoked on configurations satisfying
this predicate. -/
def methodologyValid (cfg : MethodologyConfig) : Prop :=
  cfg.kpis ≠ [] ∧
  (∀ k ∈ cfg.kpis,
    0 ≤ k.weight ∧ k.weight ≤ 1 ∧
    0 ≤ k.benchmark_ranges.conservative ∧
    k.benchmark_ranges.conservative ≤ k.benchmark_ranges.moderate ∧
    k.benchmark_ranges.moderate ≤ k.benchmark_ranges.aggressive ∧
    (registryGet k.id).isSome) ∧
  cfg.realization_curve ≠ [] ∧
  (∀ p ∈ cfg.realization_curve, 0 < p ∧ p ≤ 1) ∧
  List.Chain' (· ≤ ·) cfg.realization_curve ∧
  0 ≤ cfg.confidence_discounts.company_reported ∧
  cfg.confidence_discounts.company_reported ≤ 1 ∧
  0 ≤ cfg.confidence_discounts.industry_benchmark ∧
  cfg.confidence_discounts.industry_benchmark ≤ 1 ∧
  0 ≤ cfg.confidence_discounts.cross_industry ∧
  cfg.confidence_discounts.cross_industry ≤ 1 ∧
  0 ≤ cfg.confidence_discounts.estimated ∧
  cfg.confidence_discounts.estimated ≤ 1 ∧
  (enabledKpis cfg = [] ∨
    |((enabledKpis cfg).map (fun k => k.weight)).sum - 1| ≤ 1/100)

instance (cfg : MethodologyConfig) : Decidable (methodologyValid cfg) := by
  unfold methodologyValid
  infer_instance

/-- A manual-override source attribution used by the concrete sample data. -/
def sampleSource : SourceAttribution := { source_type := .manual_override }

/-- A sample `DataPoint` with the given value and tier. -/
def mkDataPoint (v : Value) (t : DataSourceTier) : DataPoint :=
  { value := v, confidence_tier := t, confidence_score := 1, source := sampleSource }

/-- 100M annual revenue reported by the company (spec scenario data). -/
def dpRev100 : DataPoint := mkDataPoint (.num 100000000) .company_reported

/-- 80M annual revenue from an industry benchmark (spec scenario data). -/
def dpRev80 : DataPoint := mkDataPoint (.num 80000000) .industry_benchmark

/-- Primary record of the 20%-discrepancy merge scenario. -/
def mergeScenarioPrimary : CompanyData :=
  { company_name := "Acme"
    industry := "ecommerce"
    data := fun f =>
      match f with
      | .annual_revenue => some dpRev100
      | _ => none }

/-- Secondary record of the 20%-discrepancy merge scenario. -/
def mergeScenarioSecondary : CompanyData :=
  { company_name := "Acme (scraped)"
    industry := "retail"
    data := fun f =>
      match f with
      | .annual_revenue => some dpRev80
      | _ => none }

/-- A sample record with a numeric online revenue and a positive engagement
cost. -/
def sampleRec : CompanyData :=
  { company_name := "Acme"
    industry := "ecommerce"
    data := fun f =>
      match f with
      | .online_revenue => some (mkDataPoint (.num 100) .company_reported)
      | .engagement_cost => some (mkDataPoint (.num 50) .company_reported)
      | _ => none }

/-- A sample record with no engagement cost and a missing multi-input KPI
input. -/
def sampleRecNoCost : CompanyData :=
  { company_name := "Acme"
    industry := "ecommerce"
    data := fun f =>
      match f with
      | .online_revenue => some (mkDataPoint (.num 100) .industry_benchmark)
      | _ => none }

/-- A record whose engagement cost `DataPoint` carries a non-numeric value
(the `value: Any` field of a `DataPoint` may hold a string). -/
def recStringCost : CompanyData :=
  { company_name := "Acme"
    industry := "ecommerce"
    data := fun f =>
      match f with
      | .online_revenue => some (mkDataPoint (.num 100) .company_reported)
      | .engagement_cost => some (mkDataPoint (.other "TBD") .company_reported)
      | _ => none }

/-- A sample enabled KPI configuration for `conversion_rate_lift` with
in-range benchmarks. -/
def sampleKpiCfg : KPIConfig :=
  { id := "conversion_rate_lift"
    label := none
    weight := 1
    formula := "online_revenue * lift_percentage"
    inputs := [.online_revenue]
    benchmark_ranges := { conservative := 1/10, moderate := 2/10, aggressive := 3/10 }
    benchmark_source := "industry study" }

/-- A sample methodology with one enabled KPI and a two-year curve; it
passes `methodologyValid`. -/
def sampleCfg : MethodologyConfig :=
  { id := "exp-v1"
    name := "Experience Transformation"
    version := "1.0"
    applicable_industries := ["ecommerce"]
    service_type := "experience-transformation-design"
    kpis := [sampleKpiCfg]
    realization_curve := [1/2, 1] }

/-- A `conversion_rate_lift` KPI whose aggressive benchmark (1.5) lies
outside the formula domain `[0, 1]`; `BenchmarkRanges` validation only
requires `0 ≤ conservative ≤ moderate ≤ aggressive`, so this passes
validation. -/
def outOfRangeKpiCfg : KPIConfig :=
  { id := "conversion_rate_lift"
    label := none
    weight := 1
    formula := "online_revenue * lift_percentage"
    inputs := [.online_revenue]
    benchmark_ranges := { conservative := 1/2, moderate := 9/10, aggressive := 3/2 }
    benchmark_source := "industry study" }

/-- A validated methodology whose aggressive benchmark makes the formula
raise, used to refute scenario monotonicity as claimed. -/
def outOfRangeCfg : MethodologyConfig :=
  { id := "exp-v1"
    name := "Experience Transformation"
    version := "1.0"
    applicable_industries := ["ecommerce"]
    service_type := "experience-transformation-design"
    kpis := [outOfRangeKpiCfg]
    realization_curve := [1] }

/-- A record with only a numeric online revenue (no engagement cost). -/
def recOnlineOnly : CompanyData :=
  { company_name := "Acme"
    industry := "ecommerce"
    data := fun f =>
      match f with
      | .online_revenue => some (mkDataPoint (.num 100) .company_reported)
      | _ => none }

/-- A configured-but-disabled KPI entry (`KPIConfig.enabled = False`). -/
def disabledKpiCfg : KPIConfig :=
  { id := "nps_referral_revenue"
    label := none
    weight := 1/2
    formula := "annual_revenue * (nps_point_improvement / 7) * 0.01"
    inputs := [.annual_revenue]
    benchmark_ranges := { conservative := 1, moderate := 2, aggressive := 3 }
    benchmark_source := "industry study"
    enabled := false }

/-- A validated methodology with two configured KPIs, one of them disabled
(enabled weights still sum to 1). -/
def cfgWithDisabled : MethodologyConfig :=
  { id := "exp-v1"
    name := "Experience Transformation"
    version := "1.0"
    applicable_industries := ["ecommerce"]
    service_type := "experience-transformation-design"
    kpis := [sampleKpiCfg, disabledKpiCfg]
    realization_curve := [1] }

/-- Folding `_pick_winner` conflict resolution over one field: no secondary
value keeps the merged value, a gap is filled by the secondary, and two
values resolve to `pickWinner`.  This is the per-field net effect of the
inner loop of `merge_company_data`. -/
def combineField (m s : Option DataPoint) : Option DataPoint :=
  match s with
  | none => m
  | some sec_dp =>
    match m with
    | none => some sec_dp
    | some existing_dp => some (pickWinner existing_dp sec_dp)

section MergeLemmas

theorem mem_dataFieldNames (f : FieldName) : f ∈ dataFieldNames := by
  cases f <;> simp [dataFieldNames]

theorem nodup_dataFieldNames : dataFieldNames.Nodup := by decide

theorem setField_data_eq (m : CompanyData) (f : FieldName) (v : DataPoint) :
    (setField m f v).data f = some v := by
  unfold setField
  exact Function.update_same f (some v) m.data

theorem setField_data_ne (m : CompanyData) (f g : FieldName) (v : DataPoint)
    (h : g ≠ f) : (setField m f v).data g = m.data g := by
  unfold setField
  exact Function.update_noteq h (some v) m.data

theorem processField_data_ne (sec : CompanyData)
    (st : CompanyData × List ConflictEntry) (f g : FieldName) (h : g ≠ f) :
    ((processField sec st f).1).data g = st.1.data g := by
  unfold processField
  cases sec.data f with
  | none => rfl
  | some sec_dp =>
    cases st.1.data f with
    | none => exact setField_data_ne _ _ _ _ h
    | some existing_dp => exact setField_data_ne _ _ _ _ h

theorem processField_names (sec : CompanyData)
    (st : CompanyData × List ConflictEntry) (f : FieldName) :
    ((processField sec st f).1).company_name = st.1.company_name ∧
    ((processField sec st f).1).industry = st.1.industry := by
  unfold processField
  cases sec.data f with
  | none => exact ⟨rfl, rfl⟩
  | some sec_dp =>
    cases st.1.data f with
    | none => exact ⟨rfl, rfl⟩
    | some existing_dp => exact ⟨rfl, rfl⟩

theorem foldl_processField_data_not_mem (sec : CompanyData) :
    ∀ (l : List FieldName) (st : CompanyData × List ConflictEntry)
      (g : FieldName), g ∉ l →
      ((l.foldl (processField sec) st).1).data g = st.1.data g := by
  intro l
  induction l with
  | nil => intro st g _; rfl
  | cons f t ih =>
    intro st g hg
    rw [List.mem_cons, not_or] at hg
    rw [List.foldl_cons, ih _ g hg.2, processField_data_ne sec st f g hg.1]

theorem foldl_processField_data_mem (sec : CompanyData) :
    ∀ (l : List FieldName), l.Nodup →
      ∀ (st : CompanyData × List ConflictEntry) (g : FieldName), g ∈ l →
      ((l.foldl (processField sec) st).1).data g =
        combineField (st.1.data g) (sec.data g) := by
  intro l
  induction l with
  | nil => intro _ st g hg; exact absurd hg (List.not_mem_nil g)
  | cons f t ih =>
    intro hnd st g hg
    have hft : f ∉ t := (List.nodup_cons.mp hnd).1
    have hndt : t.Nodup := (List.nodup_cons.mp hnd).2
    rw [List.foldl_cons]
    rcases List.mem_cons.mp hg with hgf | hgt
    · subst hgf
      rw [foldl_processField_data_not_mem sec t _ g hft]
      unfold processField combineField
      cases hs : sec.data g with
      | none => cases st.1.data g <;> rfl
      | some sec_dp =>
        cases hm : st.1.data g with
        | none => simp [hm, setField_data_eq]
        | some existing_dp => simp [hm, setField_data_eq]
    · have hgf : g ≠ f := fun h => hft (h ▸ hgt)
      rw [ih hndt _ g hgt, processField_data_ne sec st f g hgf]

theorem filterMapCongr {α β : Type} (f g : α → Option β) :
    ∀ (l : List α), (∀ a ∈ l, f a = g a) → l.filterMap f = l.filterMap g := by
  intro l
  induction l with
  | nil => intro _; rfl
  | cons a t ih =>
    intro h
    rw [List.filterMap_cons, List.filterMap_cons, h a (List.mem_cons_self a t),
      ih (fun x hx => h x (List.mem_cons_of_mem a hx))]

theorem foldl_processField_conflicts (sec : CompanyData) :
    ∀ (l : List FieldName), l.Nodup →
      ∀ (m : CompanyData) (cs : List ConflictEntry),
      (l.foldl (processField sec) (m, cs)).2 =
        cs ++ l.filterMap (fun g =>
          match m.data g, sec.data g with
          | some a, some b => some (conflictFor g a b)
          | _, _ => none) := by
  intro l
  induction l with
  | nil => intro _ m cs; simp
  | cons f t ih =>
    intro hnd m cs
    have hft : f ∉ t := (List.nodup_cons.mp hnd).1
    have hndt : t.Nodup := (List.nodup_cons.mp hnd).2
    rw [List.foldl_cons, List.filterMap_cons]
    cases hs : sec.data f with
    | none =>
      have hstep : processField sec (m, cs) f = (m, cs) := by
        unfold processField; rw [hs]
      rw [hstep, ih hndt m cs]
      cases hm : m.data f <;> simp [hs, hm]
    | some b =>
      cases hm : m.data f with
      | none =>
        have hstep : processField sec (m, cs) f = (setField m f b, cs) := by
          unfold processField
          rw [hs]
          simp only [hm]
        have hcong :
            t.filterMap (fun g =>
              match (setField m f b).data g, sec.data g with
              | some a, some b2 => some (conflictFor g a b2)
              | _, _ => none) =
            t.filterMap (fun g =>
              match m.data g, sec.data g with
              | some a, some b2 => some (conflictFor g a b2)
              | _, _ => none) := by
          apply filterMapCongr
          intro x hx
          rw [setField_data_ne m f x b (fun h => hft (h ▸ hx))]
        rw [hstep, ih hndt _ cs, hcong]
      | some a =>
        have hstep : processField sec (m, cs) f =
            (setField m f (pickWinner a b), cs ++ [conflictFor f a b]) := by
          unfold processField
          rw [hs]
          simp only [hm]
        have hcong :
            t.filterMap (fun g =>
              match (setField m f (pickWinner a b)).data g, sec.data g with
              | some a2, some b2 => some (conflictFor g a2 b2)
              | _, _ => none) =
            t.filterMap (fun g =>
              match m.data g, sec.data g with
              | some a2, some b2 => some (conflictFor g a2 b2)
              | _, _ => none) := by
          apply filterMapCongr
          intro x hx
          rw [setField_data_ne m f x _ (fun h => hft (h ▸ hx))]
        rw [hstep, ih hndt _ _, hcong]
        simp [hs, hm]

theorem mergeStep_data (m sec : CompanyData) (g : FieldName) :
    ((mergeStep m sec).1).data g = combineField (m.data g) (sec.data g) :=
  foldl_processField_data_mem sec dataFieldNames nodup_dataFieldNames (m, []) g
    (mem_dataFieldNames g)

theorem mergeStep_conflicts (m sec : CompanyData) :
    (mergeStep m sec).2 =
      dataFieldNames.filterMap (fun g =>
        match m.data g, sec.data g with
        | some a, some b => some (conflictFor g a b)
        | _, _ => none) := by
  unfold mergeStep
  rw [foldl_processField_conflicts sec dataFieldNames nodup_dataFieldNames m []]
  simp

theorem mergeStep_names_aux (sec : CompanyData) :
    ∀ (l : List FieldName) (st : CompanyData × List ConflictEntry),
      ((l.foldl (processField sec) st).1).company_name = st.1.company_name ∧
      ((l.foldl (processField sec) st).1).industry = st.1.industry := by
  intro l
  induction l with
  | nil => intro st; exact ⟨rfl, rfl⟩
  | cons f t ih =>
    intro st
    rw [List.foldl_cons]
    exact ⟨(ih _).1.trans (processField_names sec st f).1,
           (ih _).2.trans (processField_names sec st f).2⟩

theorem mergeStep_names (m sec : CompanyData) :
    (mergeStep m sec).1.company_name = m.company_name ∧
    (mergeStep m sec).1.industry = m.industry :=
  mergeStep_names_aux sec dataFieldNames (m, [])

theorem copyStep_data_ne (p m : CompanyData) (f g : FieldName) (h : g ≠ f) :
    (copyStep p m f).data g = m.data g := by
  unfold copyStep
  cases p.data f with
  | none => rfl
  | some v => exact setField_data_ne _ _ _ _ h

theorem foldl_copyStep_data_not_mem (p : CompanyData) :
    ∀ (l : List FieldName) (m : CompanyData) (g : FieldName), g ∉ l →
      (l.foldl (copyStep p) m).data g = m.data g := by
  intro l
  induction l with
  | nil => intro m g _; rfl
  | cons f t ih =>
    intro m g hg
    rw [List.mem_cons, not_or] at hg
    rw [List.foldl_cons, ih _ g hg.2, copyStep_data_ne p m f g hg.1]

theorem foldl_copyStep_data_mem (p : CompanyData) :
    ∀ (l : List FieldName), l.Nodup → ∀ (m : CompanyData) (g : FieldName),
      g ∈ l →
      (l.foldl (copyStep p) m).data g =
        (match p.data g with
         | some v => some v
         | none => m.data g) := by
  intro l
  induction l with
  | nil => intro _ m g hg; exact absurd hg (List.not_mem_nil g)
  | cons f t ih =>
    intro hnd m g hg
    have hft : f ∉ t := (List.nodup_cons.mp hnd).1
    have hndt : t.Nodup := (List.nodup_cons.mp hnd).2
    rw [List.foldl_cons]
    rcases List.mem_cons.mp hg with hgf | hgt
    · subst hgf
      rw [foldl_copyStep_data_not_mem p t _ g hft]
      unfold copyStep
      cases hp : p.data g with
      | none => rfl
      | some v => simp [setField_data_eq]
    · have hgf : g ≠ f := fun h => hft (h ▸ hgt)
      rw [ih hndt _ g hgt, copyStep_data_ne p m f g hgf]

theorem seedRecord_data (p : CompanyData) (g : FieldName) :
    (seedRecord p).data g = p.data g := by
  have h := foldl_copyStep_data_mem p dataFieldNames nodup_dataFieldNames
    { company_name := p.company_name, industry := p.industry,
      data := fun _ => none } g (mem_dataFieldNames g)
  have hdef : seedRecord p = dataFieldNames.foldl (copyStep p)
      { company_name := p.company_name, industry := p.industry,
        data := fun _ => none } := by
    unfold seedRecord copyStep
    rfl
  rw [hdef, h]
  cases p.data g <;> rfl

theorem foldl_copyStep_names (p : CompanyData) :
    ∀ (l : List FieldName) (m : CompanyData),
      (l.foldl (copyStep p) m).company_name = m.company_name ∧
      (l.foldl (copyStep p) m).industry = m.industry := by
  intro l
  induction l with
  | nil => intro m; exact ⟨rfl, rfl⟩
  | cons f t ih =>
    intro m
    rw [List.foldl_cons]
    have hstep : (copyStep p m f).company_name = m.company_name ∧
        (copyStep p m f).industry = m.industry := by
      unfold copyStep
      cases p.data f with
      | none => exact ⟨rfl, rfl⟩
      | some v => exact ⟨rfl, rfl⟩
    exact ⟨(ih _).1.trans hstep.1, (ih _).2.trans hstep.2⟩

theorem seedRecord_names (p : CompanyData) :
    (seedRecord p).company_name = p.company_name ∧
    (seedRecord p).industry = p.industry := by
  have hdef : seedRecord p = dataFieldNames.foldl (copyStep p)
      { company_name := p.company_name, industry := p.industry,
        data := fun _ => none } := by
    unfold seedRecord copyStep
    rfl
  rw [hdef]
  exact foldl_copyStep_names p dataFieldNames _

theorem mergeCompanyData_names :
    ∀ (ss : List CompanyData) (st : CompanyData × List ConflictEntry),
      ((ss.foldl (fun st sec =>
        ((mergeStep st.1 sec).1, st.2 ++ (mergeStep st.1 sec).2)) st).1).company_name
        = st.1.company_name ∧
      ((ss.foldl (fun st sec =>
        ((mergeStep st.1 sec).1, st.2 ++ (mergeStep st.1 sec).2)) st).1).industry
        = st.1.industry := by
  intro ss
  induction ss with
  | nil => intro st; exact ⟨rfl, rfl⟩
  | cons sec t ih =>
    intro st
    rw [List.foldl_cons]
    have hstep := mergeStep_names st.1 sec
    exact ⟨(ih _).1.trans hstep.1, (ih _).2.trans hstep.2⟩

end MergeLemmas

/-- C1: in `merge_company_data`, whenever the currently-merged record and a
secondary record both carry a `DataPoint` for a field, the point with the
strictly higher confidence-tier rank becomes the merged value and a tie keeps
the currently-merged value (first writer wins); and one `ConflictEntry` is
recorded for every such field×secondary pair — the conflict list of a
secondary pass is exactly the entries of the both-present fields, with no
equality test on the two values, so an entry is recorded even when the values
agree. -/
theorem merge_resolves_by_tier_and_always_logs_conflict
    (merged sec : CompanyData) (f : FieldName) (a b : DataPoint)
    (ha : merged.data f = some a) (hb : sec.data f = some b) :
    ((mergeStep merged sec).1.data f =
      some (if tierRank a.confidence_tier < tierRank b.confidence_tier
            then b else a)) ∧
    conflictFor f a b ∈ (mergeStep merged sec).2 ∧
    (mergeStep merged sec).2 =
      dataFieldNames.filterMap (fun g =>
        match merged.data g, sec.data g with
        | some x, some y => some (conflictFor g x y)
        | _, _ => none) := by
  refine ⟨?_, ?_, mergeStep_conflicts merged sec⟩
  · rw [mergeStep_data, ha, hb]
    have hcb : combineField (some a) (some b) = some (pickWinner a b) := rfl
    rw [hcb]
    unfold pickWinner
    by_cases h : tierRank a.confidence_tier ≥ tierRank b.confidence_tier
    · rw [if_pos h, if_neg (not_lt.mpr (ge_iff_le.mp h))]
    · rw [if_neg h, if_pos (lt_of_not_ge h)]
  · rw [mergeStep_conflicts]
    exact List.mem_filterMap.mpr ⟨f, mem_dataFieldNames f, by rw [ha, hb]⟩

/-- C1 witness: the tier-resolution and conflict-logging theorem applied to
two concrete records that both carry `annual_revenue`. -/
theorem merge_resolves_by_tier_witness :
    mergeScenarioPrimary.data .annual_revenue = some dpRev100 ∧
    mergeScenarioSecondary.data .annual_revenue = some dpRev80 ∧
    (mergeStep mergeScenarioPrimary mergeScenarioSecondary).1.data
        .annual_revenue =
      some (if tierRank dpRev100.confidence_tier <
              tierRank dpRev80.confidence_tier
            then dpRev80 else dpRev100) ∧
    conflictFor .annual_revenue dpRev100 dpRev80 ∈
      (mergeStep mergeScenarioPrimary mergeScenarioSecondary).2 :=
  ⟨rfl, rfl,
    (merge_resolves_by_tier_and_always_logs_conflict mergeScenarioPrimary
      mergeScenarioSecondary .annual_revenue dpRev100 dpRev80 rfl rfl).1,
    (merge_resolves_by_tier_and_always_logs_conflict mergeScenarioPrimary
      mergeScenarioSecondary .annual_revenue dpRev100 dpRev80 rfl rfl).2.1⟩

/-- C4: the review flag of a conflict between two `DataPoint`s is set exactly
when both values are numeric and the relative discrepancy
`|a − b| / max(|a|, |b|)` (0 when both are exactly 0) exceeds 0.10; with a
non-numeric side the discrepancy check is skipped and the flag is false; the
flag does not depend on which point wins.  On the spec scenario — primary
100M COMPANY_REPORTED against secondary 80M INDUSTRY_BENCHMARK — the merged
value is the 100M point and the conflict list is exactly one flagged
entry. -/
theorem conflict_flagged_iff_discrepancy_above_ten_pct
    (merged sec : CompanyData) (f : FieldName) (a b : DataPoint)
    (ha : merged.data f = some a) (hb : sec.data f = some b) :
    (∀ x y : ℚ, pyFloat a.value = some x → pyFloat b.value = some y →
      ((conflictFor f a b).flagged_for_cp =
        decide (discrepancyPct x y > 1/10) ∧
       discrepancyPct x y =
        (if x = 0 ∧ y = 0 then 0 else |x - y| / max |x| |y|))) ∧
    ((pyFloat a.value = none ∨ pyFloat b.value = none) →
      (conflictFor f a b).flagged_for_cp = false) ∧
    conflictFor f a b ∈ (mergeStep merged sec).2 ∧
    (mergeCompanyData mergeScenarioPrimary [mergeScenarioSecondary]).1.data
        .annual_revenue = some dpRev100 ∧
    (mergeCompanyData mergeScenarioPrimary [mergeScenarioSecondary]).2 =
      [conflictFor .annual_revenue dpRev100 dpRev80] ∧
    (conflictFor .annual_revenue dpRev100 dpRev80).flagged_for_cp = true := by
  refine ⟨?_, ?_, ?_, ?_, ?_, ?_⟩
  · intro x y hx hy
    constructor
    · unfold conflictFor
      rw [hx, hy]
    · unfold discrepancyPct
      by_cases h0 : x = 0 ∧ y = 0
      · rw [if_pos h0, if_pos h0]
      · have hmax : max |x| |y| ≠ 0 := by
          rw [not_and_or] at h0
          rcases h0 with h | h
          · exact ne_of_gt (lt_max_of_lt_left (abs_pos.mpr h))
          · exact ne_of_gt (lt_max_of_lt_right (abs_pos.mpr h))
        rw [if_neg h0, if_neg h0]
        try exact if_neg hmax
  · intro h
    unfold conflictFor
    rcases h with h | h
    · rw [h]
    · rw [h]
      cases pyFloat a.value <;> rfl
  · rw [mergeStep_conflicts]
    exact List.mem_filterMap.mpr ⟨f, mem_dataFieldNames f, by rw [ha, hb]⟩
  · have h1 : (mergeCompanyData mergeScenarioPrimary
        [mergeScenarioSecondary]).1 =
        (mergeStep (seedRecord mergeScenarioPrimary)
          mergeScenarioSecondary).1 := rfl
    rw [h1, mergeStep_data, seedRecord_data]
    rfl
  · have h2 : (mergeCompanyData mergeScenarioPrimary
        [mergeScenarioSecondary]).2 =
        (mergeStep (seedRecord mergeScenarioPrimary)
          mergeScenarioSecondary).2 := by
      simp [mergeCompanyData]
    rw [h2, mergeStep_conflicts]
    have hcong := filterMapCongr
      (fun g =>
        match (seedRecord mergeScenarioPrimary).data g,
          mergeScenarioSecondary.data g with
        | some x, some y => some (conflictFor g x y)
        | _, _ => none)
      (fun g =>
        match mergeScenarioPrimary.data g, mergeScenarioSecondary.data g with
        | some x, some y => some (conflictFor g x y)
        | _, _ => none)
      dataFieldNames
      (by intro g _; simp only [seedRecord_data])
    rw [hcong]
    rfl
  · have hflag : (conflictFor FieldName.annual_revenue dpRev100
        dpRev80).flagged_for_cp =
        decide (discrepancyPct 100000000 80000000 > 1/10) := rfl
    have hd : discrepancyPct 100000000 80000000 = 1/5 := by
      unfold discrepancyPct
      rw [if_neg (by norm_num)]
      show (if (max |(100000000:ℚ)| |(80000000:ℚ)| = 0) then 0
            else |(100000000:ℚ) - 80000000| /
              max |(100000000:ℚ)| |(80000000:ℚ)|) = 1/5
      have h1 : |(100000000:ℚ)| = 100000000 := abs_of_pos (by norm_num)
      have h2 : |(80000000:ℚ)| = 80000000 := abs_of_pos (by norm_num)
      have h3 : |(100000000:ℚ) - 80000000| = 20000000 := by
        rw [show (100000000:ℚ) - 80000000 = 20000000 by norm_num]
        exact abs_of_pos (by norm_num)
      rw [h1, h2, h3, max_eq_left (by norm_num), if_neg (by norm_num)]
      norm_num
    rw [hflag, decide_eq_true_eq, hd]
    norm_num

/-- C4 witness: the flag characterisation applied to the concrete 20%
scenario records. -/
theorem conflict_flagged_witness :
    mergeScenarioPrimary.data .annual_revenue = some dpRev100 ∧
    mergeScenarioSecondary.data .annual_revenue = some dpRev80 ∧
    (conflictFor .annual_revenue dpRev100 dpRev80).flagged_for_cp = true :=
  ⟨rfl, rfl,
    (conflict_flagged_iff_discrepancy_above_ten_pct mergeScenarioPrimary
      mergeScenarioSecondary .annual_revenue dpRev100 dpRev80 rfl
      rfl).2.2.2.2.2⟩

/-- C8: merging in two steps — the merged record of `merge(a, [b])` merged
with `c` — produces, field by field (identity fields included), the same
merged record as the single call `merge(a, [b, c])`; the property holds for
all triples of records, independent fields or not. -/
theorem merge_two_step_equals_single_call (a b c : CompanyData) :
    (∀ f : FieldName,
      (mergeCompanyData (mergeCompanyData a [b]).1 [c]).1.data f =
      (mergeCompanyData a [b, c]).1.data f) ∧
    (mergeCompanyData (mergeCompanyData a [b]).1 [c]).1.company_name =
      (mergeCompanyData a [b, c]).1.company_name ∧
    (mergeCompanyData (mergeCompanyData a [b]).1 [c]).1.industry =
      (mergeCompanyData a [b, c]).1.industry := by
  have hab : (mergeCompanyData a [b]).1 = (mergeStep (seedRecord a) b).1 := rfl
  have habc : (mergeCompanyData a [b, c]).1 =
      (mergeStep (mergeStep (seedRecord a) b).1 c).1 := rfl
  have hlhs : (mergeCompanyData (mergeCompanyData a [b]).1 [c]).1 =
      (mergeStep (seedRecord (mergeStep (seedRecord a) b).1) c).1 := rfl
  refine ⟨?_, ?_, ?_⟩
  · intro f
    rw [hlhs, habc]
    simp only [mergeStep_data, seedRecord_data]
  · rw [hlhs, habc, (mergeStep_names _ _).1, (mergeStep_names _ _).1,
      (seedRecord_names _).1]
  · rw [hlhs, habc, (mergeStep_names _ _).2, (mergeStep_names _ _).2,
      (seedRecord_names _).2]

/-- C10: `merge_company_data` writes only to the freshly constructed merged
record — in this pure embedding the input records are immutable by
construction, mirroring the source, which calls `setattr` only on `merged` —
and the merged record always takes `company_name` and `industry` from the
primary record, whatever identity fields the secondaries carry. -/
theorem merge_never_mutates_inputs_and_keeps_primary_identity
    (primary : CompanyData) (secondaries : List CompanyData) :
    (mergeCompanyData primary secondaries).1.company_name =
      primary.company_name ∧
    (mergeCompanyData primary secondaries).1.industry = primary.industry := by
  have h := mergeCompanyData_names secondaries (seedRecord primary, [])
  have hdef : (mergeCompanyData primary secondaries).1 =
      (secondaries.foldl (fun st sec =>
        ((mergeStep st.1 sec).1, st.2 ++ (mergeStep st.1 sec).2))
        (seedRecord primary, [])).1 := rfl
  rw [hdef]
  exact ⟨h.1.trans (seedRecord_names primary).1,
         h.2.trans (seedRecord_names primary).2⟩

section EngineLemmas

theorem calcSingleKpi_no_registry (rec : CompanyData) (kcfg : KPIConfig)
    (cfg : MethodologyConfig) (s : Scenario)
    (h : registryGet kcfg.id = none) :
    calcSingleKpi rec kcfg cfg s =
      skippedEntry kcfg ("KPI " ++ kcfg.id ++ " not found in registry") := by
  unfold calcSingleKpi
  rw [h]

theorem calcSingleKpi_missing (rec : CompanyData) (kcfg : KPIConfig)
    (cfg : MethodologyConfig) (s : Scenario) (kdef : KPIDefinition)
    (h : registryGet kcfg.id = some kdef) (f0 : FieldName)
    (rest : List FieldName)
    (hm : (gatherInputs rec kdef.required_inputs).2 = f0 :: rest) :
    calcSingleKpi rec kcfg cfg s = skippedEntry kcfg (missingMsg (f0 :: rest)) := by
  unfold calcSingleKpi
  rw [h]
  simp only [hm]

theorem calcSingleKpi_formula_error (rec : CompanyData) (kcfg : KPIConfig)
    (cfg : MethodologyConfig) (s : Scenario) (kdef : KPIDefinition)
    (h : registryGet kcfg.id = some kdef)
    (hm : (gatherInputs rec kdef.required_inputs).2 = [])
    (e : String)
    (hf : kdef.formula_fn
        ((gatherInputs rec kdef.required_inputs).1.map (fun p => p.2.value))
        (benchmarkFor kcfg.benchmark_ranges s) = .error e) :
    calcSingleKpi rec kcfg cfg s = skippedEntry kcfg ("Formula error: " ++ e) := by
  unfold calcSingleKpi
  rw [h]
  simp only [hm, hf]

theorem calcSingleKpi_success (rec : CompanyData) (kcfg : KPIConfig)
    (cfg : MethodologyConfig) (s : Scenario) (kdef : KPIDefinition)
    (h : registryGet kcfg.id = some kdef)
    (hm : (gatherInputs rec kdef.required_inputs).2 = [])
    (raw : ℚ)
    (hf : kdef.formula_fn
        ((gatherInputs rec kdef.required_inputs).1.map (fun p => p.2.value))
        (benchmarkFor kcfg.benchmark_ranges s) = .ok raw) :
    calcSingleKpi rec kcfg cfg s =
      { kpi_id := kcfg.id
        kpi_label := pyOr kcfg.label kdef.label
        formula_description := kcfg.formula
        inputs_used :=
          (gatherInputs rec kdef.required_inputs).1.map (fun p => (p.1, p.2.value))
        input_tiers :=
          (gatherInputs rec kdef.required_inputs).1.map
            (fun p => (p.1, p.2.confidence_tier))
        benchmark_value := benchmarkFor kcfg.benchmark_ranges s
        benchmark_source := kcfg.benchmark_source
        raw_impact := raw
        confidence_discount :=
          computeConfidence ((gatherInputs rec kdef.required_inputs).1.map
            (fun p => p.2)) cfg
        adjusted_impact :=
          raw * computeConfidence ((gatherInputs rec kdef.required_inputs).1.map
            (fun p => p.2)) cfg
        weight := kcfg.weight
        weighted_impact :=
          raw * computeConfidence ((gatherInputs rec kdef.required_inputs).1.map
            (fun p => p.2)) cfg * kcfg.weight
        category := kdef.category
        skipped := false
        skip_reason := none } := by
  unfold calcSingleKpi
  rw [h]
  simp only [hm, hf]

theorem calcSingleKpi_not_skipped (rec : CompanyData) (kcfg : KPIConfig)
    (cfg : MethodologyConfig) (s : Scenario)
    (h : (calcSingleKpi rec kcfg cfg s).skipped = false) :
    ∃ (kdef : KPIDefinition) (raw : ℚ),
      registryGet kcfg.id = some kdef ∧
      (gatherInputs rec kdef.required_inputs).2 = [] ∧
      kdef.formula_fn
        ((gatherInputs rec kdef.required_inputs).1.map (fun p => p.2.value))
        (benchmarkFor kcfg.benchmark_ranges s) = .ok raw ∧
      (calcSingleKpi rec kcfg cfg s).raw_impact = raw ∧
      (calcSingleKpi rec kcfg cfg s).confidence_discount =
        computeConfidence ((gatherInputs rec kdef.required_inputs).1.map
          (fun p => p.2)) cfg ∧
      (calcSingleKpi rec kcfg cfg s).adjusted_impact =
        raw * (calcSingleKpi rec kcfg cfg s).confidence_discount ∧
      (calcSingleKpi rec kcfg cfg s).weighted_impact =
        (calcSingleKpi rec kcfg cfg s).adjusted_impact * kcfg.weight := by
  cases hreg : registryGet kcfg.id with
  | none =>
    rw [calcSingleKpi_no_registry rec kcfg cfg s hreg] at h
    exact absurd h (by simp [skippedEntry])
  | some kdef =>
    cases hm : (gatherInputs rec kdef.required_inputs).2 with
    | cons f0 rest =>
      rw [calcSingleKpi_missing rec kcfg cfg s kdef hreg f0 rest hm] at h
      exact absurd h (by simp [skippedEntry])
    | nil =>
      cases hf : kdef.formula_fn
          ((gatherInputs rec kdef.required_inputs).1.map (fun p => p.2.value))
          (benchmarkFor kcfg.benchmark_ranges s) with
      | error e =>
        rw [calcSingleKpi_formula_error rec kcfg cfg s kdef hreg hm e hf] at h
        exact absurd h (by simp [skippedEntry])
      | ok raw =>
        have heq := calcSingleKpi_success rec kcfg cfg s kdef hreg hm raw hf
        refine ⟨kdef, raw, rfl, hm, hf, ?_, ?_, ?_, ?_⟩ <;> simp [heq]

theorem calcSingleKpi_id (rec : CompanyData) (kcfg : KPIConfig)
    (cfg : MethodologyConfig) (s : Scenario) :
    (calcSingleKpi rec kcfg cfg s).kpi_id = kcfg.id := by
  cases hreg : registryGet kcfg.id with
  | none => rw [calcSingleKpi_no_registry rec kcfg cfg s hreg]; rfl
  | some kdef =>
    cases hm : (gatherInputs rec kdef.required_inputs).2 with
    | cons f0 rest =>
      rw [calcSingleKpi_missing rec kcfg cfg s kdef hreg f0 rest hm]; rfl
    | nil =>
      cases hf : kdef.formula_fn
          ((gatherInputs rec kdef.required_inputs).1.map (fun p => p.2.value))
          (benchmarkFor kcfg.benchmark_ranges s) with
      | error e =>
        rw [calcSingleKpi_formula_error rec kcfg cfg s kdef hreg hm e hf]; rfl
      | ok raw =>
        rw [calcSingleKpi_success rec kcfg cfg s kdef hreg hm raw hf]

theorem foldl_min_mem : ∀ (ms : List ℚ) (m : ℚ), ms.foldl min m ∈ m :: ms := by
  intro ms
  induction ms with
  | nil => intro m; rw [List.foldl_nil]; exact List.mem_cons_self m []
  | cons x xs ih =>
    intro m
    rw [List.foldl_cons]
    have h2 := ih (min m x)
    rcases List.mem_cons.mp h2 with h | h
    · rcases min_choice m x with hmx | hmx
      · rw [h, hmx]; exact List.mem_cons_self _ _
      · rw [h, hmx]
        exact List.mem_cons_of_mem _ (List.mem_cons_self _ _)
    · exact List.mem_cons_of_mem _ (List.mem_cons_of_mem _ h)

theorem foldl_min_le : ∀ (ms : List ℚ) (m x : ℚ), x ∈ m :: ms →
    ms.foldl min m ≤ x := by
  intro ms
  induction ms with
  | nil =>
    intro m x hx
    rw [List.foldl_nil]
    rcases List.mem_cons.mp hx with h | h
    · exact le_of_eq h.symm
    · exact absurd h (List.not_mem_nil x)
  | cons y ys ih =>
    intro m x hx
    rw [List.foldl_cons]
    rcases List.mem_cons.mp hx with h | h
    · rw [h]
      exact le_trans (ih (min m y) (min m y) (List.mem_cons_self _ _))
        (min_le_left m y)
    · rcases List.mem_cons.mp h with h2 | h2
      · rw [h2]
        exact le_trans (ih (min m y) (min m y) (List.mem_cons_self _ _))
          (min_le_right m y)
      · exact ih (min m y) x (List.mem_cons_of_mem _ h2)

theorem le_foldl_min (c : ℚ) : ∀ (ms : List ℚ) (m : ℚ), c ≤ m →
    (∀ x ∈ ms, c ≤ x) → c ≤ ms.foldl min m := by
  intro ms
  induction ms with
  | nil => intro m hm _; rw [List.foldl_nil]; exact hm
  | cons y ys ih =>
    intro m hm hys
    rw [List.foldl_cons]
    exact ih (min m y) (le_min hm (hys y (List.mem_cons_self _ _)))
      (fun x hx => hys x (List.mem_cons_of_mem _ hx))

theorem computeConfidence_spec (dps : List DataPoint) (cfg : MethodologyConfig)
    (h : dps ≠ []) :
    computeConfidence dps cfg ∈
      dps.map (fun dp => cfg.confidence_discounts.getDiscount dp.confidence_tier) ∧
    ∀ x ∈ dps.map
        (fun dp => cfg.confidence_discounts.getDiscount dp.confidence_tier),
      computeConfidence dps cfg ≤ x := by
  cases dps with
  | nil => exact absurd rfl h
  | cons d ds =>
    have hc : computeConfidence (d :: ds) cfg =
        (ds.map (fun dp =>
          cfg.confidence_discounts.getDiscount dp.confidence_tier)).foldl min
          (cfg.confidence_discounts.getDiscount d.confidence_tier) := rfl
    rw [hc]
    constructor
    · rw [List.map_cons]
      exact foldl_min_mem _ _
    · intro x hx
      rw [List.map_cons] at hx
      exact foldl_min_le _ _ x hx

theorem computeConfidence_nonneg (cfg : MethodologyConfig)
    (hd : ∀ t : DataSourceTier, 0 ≤ cfg.confidence_discounts.getDiscount t) :
    ∀ (dps : List DataPoint), 0 ≤ computeConfidence dps cfg := by
  intro dps
  cases dps with
  | nil => exact hd .estimated
  | cons d ds =>
    have hc : computeConfidence (d :: ds) cfg =
        (ds.map (fun dp =>
          cfg.confidence_discounts.getDiscount dp.confidence_tier)).foldl min
          (cfg.confidence_discounts.getDiscount d.confidence_tier) := rfl
    rw [hc]
    apply le_foldl_min _ _ _ (hd d.confidence_tier)
    intro x hx
    rcases List.mem_map.mp hx with ⟨dp, _, hdp⟩
    exact hdp ▸ hd dp.confidence_tier

theorem projectAux_length (t : ℚ) :
    ∀ (c : List ℚ) (i : Nat) (cum : ℚ),
      (projectAux t c i cum).length = c.length := by
  intro c
  induction c with
  | nil => intro i cum; rfl
  | cons pct rest ih =>
    intro i cum
    show (projectAux t rest (i + 1) (cum + t * pct)).length + 1 = rest.length + 1
    rw [ih]

theorem projectAux_getElem (t : ℚ) :
    ∀ (curve : List ℚ) (i : Nat) (cum : ℚ) (j : Nat),
      (projectAux t curve i cum)[j]? = (curve[j]?).map (fun pct =>
        { year := i + j + 1
          realization_percentage := pct
          projected_impact := t * pct
          cumulative_impact := cum + t * ((curve.take (j + 1)).sum) }) := by
  intro curve
  induction curve with
  | nil => intro i cum j; simp [projectAux]
  | cons pct rest ih =>
    intro i cum j
    have hstep : projectAux t (pct :: rest) i cum =
        { year := i + 1, realization_percentage := pct,
          projected_impact := t * pct,
          cumulative_impact := cum + t * pct } ::
          projectAux t rest (i + 1) (cum + t * pct) := rfl
    cases j with
    | zero =>
      rw [hstep]
      simp [YearProjection.mk.injEq, List.take]
    | succ j =>
      rw [hstep]
      simp only [List.getElem?_cons_succ]
      rw [ih (i + 1) (cum + t * pct) j]
      cases hjr : rest[j]? with
      | none => simp
      | some p =>
        rw [Option.map_some', Option.map_some']
        have h1 : i + 1 + j + 1 = i + (j + 1) + 1 := by omega
        have h2 : cum + t * pct + t * ((rest.take (j + 1)).sum) =
            cum + t * (((pct :: rest).take (j + 1 + 1)).sum) := by
          rw [List.take_succ_cons, List.sum_cons]
          ring
        rw [h1, h2]

theorem projectAux_map_projected (t : ℚ) :
    ∀ (c : List ℚ) (i : Nat) (cum : ℚ),
      (projectAux t c i cum).map (fun p => p.projected_impact) =
        c.map (fun pct => t * pct) := by
  intro c
  induction c with
  | nil => intro i cum; rfl
  | cons pct rest ih =>
    intro i cum
    show t * pct :: (projectAux t rest (i + 1) (cum + t * pct)).map
        (fun p => p.projected_impact) = t * pct :: rest.map (fun pct => t * pct)
    rw [ih]

theorem sum_map_mul (t : ℚ) :
    ∀ (c : List ℚ), (c.map (fun x => t * x)).sum = t * c.sum := by
  intro c
  induction c with
  | nil => simp
  | cons pct rest ih =>
    rw [List.map_cons, List.sum_cons, List.sum_cons, ih, mul_add]

theorem runScenario_ok (rec : CompanyData) (cfg : MethodologyConfig)
    (s : Scenario) (r : ScenarioResult)
    (h : runScenario rec cfg s = .ok r) :
    r.kpi_results = scenEntries rec cfg s ∧
    r.total_annual_impact = scenTotalWeighted rec cfg s ∧
    r.total_annual_impact_unweighted = scenTotalUnweighted rec cfg s ∧
    r.year_projections = scenYearProjections rec cfg s ∧
    r.cumulative_3yr_impact =
      ((scenYearProjections rec cfg s).map (fun p => p.projected_impact)).sum ∧
    r.skipped_kpis = scenSkipped rec cfg s ∧
    r.scenario = s := by
  unfold runScenario at h
  cases hec : rec.data FieldName.engagement_cost with
  | none =>
    simp only [hec] at h
    injection h with h2
    rw [← h2]
    exact ⟨rfl, rfl, rfl, rfl, rfl, rfl, rfl⟩
  | some dp =>
    simp only [hec] at h
    cases hv : dp.value with
    | num c =>
      simp only [hv] at h
      by_cases hc : c > 0
      · rw [if_pos hc] at h
        injection h with h2
        rw [← h2]
        exact ⟨rfl, rfl, rfl, rfl, rfl, rfl, rfl⟩
      · rw [if_neg hc] at h
        injection h with h2
        rw [← h2]
        exact ⟨rfl, rfl, rfl, rfl, rfl, rfl, rfl⟩
    | other msg =>
      simp only [hv] at h
      cases h

theorem runScenario_roi (rec : CompanyData) (cfg : MethodologyConfig)
    (s : Scenario) (r : ScenarioResult)
    (h : runScenario rec cfg s = .ok r) :
    (rec.data FieldName.engagement_cost = none →
      r.roi_percentage = none ∧ r.roi_multiple = none ∧
      r.engagement_cost = none) ∧
    (∀ (dp : DataPoint) (c : ℚ),
      rec.data FieldName.engagement_cost = some dp → dp.value = .num c →
      ((0 < c →
        r.roi_percentage =
          some ((scenTotalUnweighted rec cfg s - c) / c * 100) ∧
        r.roi_multiple = some (scenTotalUnweighted rec cfg s / c) ∧
        r.engagement_cost = some c) ∧
       (c ≤ 0 →
        r.roi_percentage = none ∧ r.roi_multiple = none ∧
        r.engagement_cost = none))) := by
  unfold runScenario at h
  constructor
  · intro hec
    simp only [hec] at h
    injection h with h2
    rw [← h2]
    exact ⟨rfl, rfl, rfl⟩
  · intro dp c hec hv
    simp only [hec, hv] at h
    constructor
    · intro hc
      rw [if_pos (show c > 0 from hc)] at h
      injection h with h2
      rw [← h2]
      exact ⟨rfl, rfl, rfl⟩
    · intro hc
      rw [if_neg (not_lt.mpr hc)] at h
      injection h with h2
      rw [← h2]
      exact ⟨rfl, rfl, rfl⟩

theorem exists_ok_of_isOk {α : Type} (e : Except String α)
    (h : exceptIsOk e = true) : ∃ a, e = .ok a := by
  cases e with
  | ok a => exact ⟨a, rfl⟩
  | error msg => exact absurd h (by simp [exceptIsOk])

theorem runScenario_isOk (rec : CompanyData) (cfg : MethodologyConfig)
    (s : Scenario)
    (hec : ∀ dp, rec.data FieldName.engagement_cost = some dp →
      ∃ q, dp.value = Value.num q) :
    exceptIsOk (runScenario rec cfg s) = true := by
  unfold runScenario
  cases h : rec.data FieldName.engagement_cost with
  | none => rfl
  | some dp =>
    obtain ⟨q, hq⟩ := hec dp h
    simp only [hq]
    by_cases hq0 : q > 0
    · rw [if_pos hq0]
      rfl
    · rw [if_neg hq0]
      rfl

theorem runScenario_total (rec : CompanyData) (cfg : MethodologyConfig)
    (s : Scenario)
    (hec : ∀ dp, rec.data FieldName.engagement_cost = some dp →
      ∃ q, dp.value = Value.num q) :
    ∃ r, runScenario rec cfg s = .ok r :=
  exists_ok_of_isOk _ (runScenario_isOk rec cfg s hec)

theorem calculate_ok (rec : CompanyData) (cfg : MethodologyConfig)
    (res : CalculationResult) (h : calculate rec cfg = .ok res) :
    ∀ s, runScenario rec cfg s = .ok (res.scenarios s) := by
  unfold calculate at h
  cases h1 : runScenario rec cfg .conservative with
  | error e => simp only [h1] at h; exact Except.noConfusion h
  | ok rc =>
    simp only [h1] at h
    cases h2 : runScenario rec cfg .moderate with
    | error e => simp only [h2] at h; exact Except.noConfusion h
    | ok rm =>
      simp only [h2] at h
      cases h3 : runScenario rec cfg .aggressive with
      | error e => simp only [h3] at h; exact Except.noConfusion h
      | ok ra =>
        simp only [h3] at h
        injection h with h4
        intro s
        rw [← h4]
        cases s
        · exact h1
        · exact h2
        · exact h3

theorem calculate_isOk_of_engagement_numeric (rec : CompanyData)
    (cfg : MethodologyConfig)
    (hec : ∀ dp, rec.data FieldName.engagement_cost = some dp →
      ∃ q, dp.value = Value.num q) :
    exceptIsOk (calculate rec cfg) = true := by
  obtain ⟨rc, h1⟩ := runScenario_total rec cfg .conservative hec
  obtain ⟨rm, h2⟩ := runScenario_total rec cfg .moderate hec
  obtain ⟨ra, h3⟩ := runScenario_total rec cfg .aggressive hec
  unfold calculate
  rw [h1, h2, h3]
  rfl

theorem calculate_ok_of_engagement_numeric (rec : CompanyData)
    (cfg : MethodologyConfig)
    (hec : ∀ dp, rec.data FieldName.engagement_cost = some dp →
      ∃ q, dp.value = Value.num q) :
    ∃ res, calculate rec cfg = .ok res :=
  exists_ok_of_isOk _ (calculate_isOk_of_engagement_numeric rec cfg hec)

theorem calcConversionRateLift_mono (args : List Value) (b1 b2 r1 r2 : ℚ)
    (hb : b1 ≤ b2)
    (h1 : calcConversionRateLift args b1 = .ok r1)
    (h2 : calcConversionRateLift args b2 = .ok r2) : r1 ≤ r2 := by
  cases args with
  | nil => exact Except.noConfusion h1
  | cons v tail =>
    cases tail with
    | cons w tail2 => exact Except.noConfusion h1
    | nil =>
      cases v with
      | other msg => exact Except.noConfusion h1
      | num x =>
        have h1' : (if x < 0 then
              (Except.error "online_revenue cannot be negative" : Except String ℚ)
            else if b1 < 0 ∨ 1 < b1 then .error "lift_percentage must be 0-1.0"
            else .ok (x * b1)) = .ok r1 := h1
        have h2' : (if x < 0 then
              (Except.error "online_revenue cannot be negative" : Except String ℚ)
            else if b2 < 0 ∨ 1 < b2 then .error "lift_percentage must be 0-1.0"
            else .ok (x * b2)) = .ok r2 := h2
        by_cases hx : x < 0
        · rw [if_pos hx] at h1'
          exact Except.noConfusion h1'
        · rw [if_neg hx] at h1' h2'
          by_cases hl1 : b1 < 0 ∨ 1 < b1
          · rw [if_pos hl1] at h1'
            exact Except.noConfusion h1'
          · rw [if_neg hl1] at h1'
            by_cases hl2 : b2 < 0 ∨ 1 < b2
            · rw [if_pos hl2] at h2'
              exact Except.noConfusion h2'
            · rw [if_neg hl2] at h2'
              injection h1' with e1
              injection h2' with e2
              rw [← e1, ← e2]
              exact mul_le_mul_of_nonneg_left hb (le_of_not_lt hx)

theorem calcAovIncrease_mono (args : List Value) (b1 b2 r1 r2 : ℚ)
    (hb : b1 ≤ b2)
    (h1 : calcAovIncrease args b1 = .ok r1)
    (h2 : calcAovIncrease args b2 = .ok r2) : r1 ≤ r2 := by
  cases args with
  | nil => exact Except.noConfusion h1
  | cons v tail =>
    cases tail with
    | nil => exact Except.noConfusion h1
    | cons w tail2 =>
      cases tail2 with
      | cons u tail3 => exact Except.noConfusion h1
      | nil =>
        cases v with
        | other msg => exact Except.noConfusion h1
        | num x =>
          have h1' : (if x < 0 then
                (Except.error "order_volume cannot be negative" :
                  Except String ℚ)
              else (pyNum w).bind (fun current_aov =>
                if current_aov < 0 then .error "current_aov cannot be negative"
                else if b1 < 0 ∨ 1 < b1 then
                  .error "lift_percentage must be 0-1.0"
                else .ok (x * (current_aov * (1 + b1) - current_aov)))) =
              .ok r1 := h1
          have h2' : (if x < 0 then
                (Except.error "order_volume cannot be negative" :
                  Except String ℚ)
              else (pyNum w).bind (fun current_aov =>
                if current_aov < 0 then .error "current_aov cannot be negative"
                else if b2 < 0 ∨ 1 < b2 then
                  .error "lift_percentage must be 0-1.0"
                else .ok (x * (current_aov * (1 + b2) - current_aov)))) =
              .ok r2 := h2
          by_cases hx : x < 0
          · rw [if_pos hx] at h1'
            exact Except.noConfusion h1'
          · rw [if_neg hx] at h1' h2'
            cases w with
            | other msg => exact Except.noConfusion h1'
            | num y =>
              have h1'' : (if y < 0 then
                    (Except.error "current_aov cannot be negative" :
                      Except String ℚ)
                  else if b1 < 0 ∨ 1 < b1 then
                    .error "lift_percentage must be 0-1.0"
                  else .ok (x * (y * (1 + b1) - y))) = .ok r1 := h1'
              have h2'' : (if y < 0 then
                    (Except.error "current_aov cannot be negative" :
                      Except String ℚ)
                  else if b2 < 0 ∨ 1 < b2 then
                    .error "lift_percentage must be 0-1.0"
                  else .ok (x * (y * (1 + b2) - y))) = .ok r2 := h2'
              by_cases hy : y < 0
              · rw [if_pos hy] at h1''
                exact Except.noConfusion h1''
              · rw [if_neg hy] at h1'' h2''
                by_cases hl1 : b1 < 0 ∨ 1 < b1
                · rw [if_pos hl1] at h1''
                  exact Except.noConfusion h1''
                · rw [if_neg hl1] at h1''
                  by_cases hl2 : b2 < 0 ∨ 1 < b2
                  · rw [if_pos hl2] at h2''
                    exact Except.noConfusion h2''
                  · rw [if_neg hl2] at h2''
                    injection h1'' with e1
                    injection h2'' with e2
                    rw [← e1, ← e2]
                    nlinarith [mul_nonneg (mul_nonneg (le_of_not_lt hx)
                      (le_of_not_lt hy)) (sub_nonneg.mpr hb)]

theorem calcChurnReduction_mono (args : List Value) (b1 b2 r1 r2 : ℚ)
    (hb : b1 ≤ b2)
    (h1 : calcChurnReduction args b1 = .ok r1)
    (h2 : calcChurnReduction args b2 = .ok r2) : r1 ≤ r2 := by
  cases args with
  | nil => exact Except.noConfusion h1
  | cons v tail =>
    cases tail with
    | nil => exact Except.noConfusion h1
    | cons w tail2 =>
      cases tail2 with
      | nil => exact Except.noConfusion h1
      | cons u tail3 =>
        cases tail3 with
        | cons z tail4 => exact Except.noConfusion h1
        | nil =>
          cases v with
          | other msg => exact Except.noConfusion h1
          | num x =>
            have h1' : (if x < 0 ∨ 1 < x then
                  (Except.error "current_churn_rate must be 0-1.0" :
                    Except String ℚ)
                else (pyNum w).bind (fun customer_count =>
                  if customer_count < 0 then
                    .error "customer_count cannot be negative"
                  else (pyNum u).bind (fun revenue_per_customer =>
                    if revenue_per_customer < 0 then
                      .error "revenue_per_customer cannot be negative"
                    else if b1 < 0 ∨ 1 < b1 then
                      .error "reduction_percentage must be 0-1.0"
                    else .ok (x * customer_count * b1 *
                      revenue_per_customer)))) = .ok r1 := h1
            have h2' : (if x < 0 ∨ 1 < x then
                  (Except.error "current_churn_rate must be 0-1.0" :
                    Except String ℚ)
                else (pyNum w).bind (fun customer_count =>
                  if customer_count < 0 then
                    .error "customer_count cannot be negative"
                  else (pyNum u).bind (fun revenue_per_customer =>
                    if revenue_per_customer < 0 then
                      .error "revenue_per_customer cannot be negative"
                    else if b2 < 0 ∨ 1 < b2 then
                      .error "reduction_percentage must be 0-1.0"
                    else .ok (x * customer_count * b2 *
                      revenue_per_customer)))) = .ok r2 := h2
            by_cases hx : x < 0 ∨ 1 < x
            · rw [if_pos hx] at h1'
              exact Except.noConfusion h1'
            · rw [if_neg hx] at h1' h2'
              cases w with
              | other msg => exact Except.noConfusion h1'
              | num y =>
                have h1'' : (if y < 0 then
                      (Except.error "customer_count cannot be negative" :
                        Except String ℚ)
                    else (pyNum u).bind (fun revenue_per_customer =>
                      if revenue_per_customer < 0 then
                        .error "revenue_per_customer cannot be negative"
                      else if b1 < 0 ∨ 1 < b1 then
                        .error "reduction_percentage must be 0-1.0"
                      else .ok (x * y * b1 * revenue_per_customer))) =
                    .ok r1 := h1'
                have h2'' : (if y < 0 then
                      (Except.error "customer_count cannot be negative" :
                        Except String ℚ)
                    else (pyNum u).bind (fun revenue_per_customer =>
                      if revenue_per_customer < 0 then
                        .error "revenue_per_customer cannot be negative"
                      else if b2 < 0 ∨ 1 < b2 then
                        .error "reduction_percentage must be 0-1.0"
                      else .ok (x * y * b2 * revenue_per_customer))) =
                    .ok r2 := h2'
                by_cases hy : y < 0
                · rw [if_pos hy] at h1''
                  exact Except.noConfusion h1''
                · rw [if_neg hy] at h1'' h2''
                  cases u with
                  | other msg => exact Except.noConfusion h1''
                  | num z =>
                    have h1''' : (if z < 0 then
                          (Except.error
                            "revenue_per_customer cannot be negative" :
                            Except String ℚ)
                        else if b1 < 0 ∨ 1 < b1 then
                          .error "reduction_percentage must be 0-1.0"
                        else .ok (x * y * b1 * z)) = .ok r1 := h1''
                    have h2''' : (if z < 0 then
                          (Except.error
                            "revenue_per_customer cannot be negative" :
                            Except String ℚ)
                        else if b2 < 0 ∨ 1 < b2 then
                          .error "reduction_percentage must be 0-1.0"
                        else .ok (x * y * b2 * z)) = .ok r2 := h2''
                    by_cases hz : z < 0
                    · rw [if_pos hz] at h1'''
                      exact Except.noConfusion h1'''
                    · rw [if_neg hz] at h1''' h2'''
                      by_cases hl1 : b1 < 0 ∨ 1 < b1
                      · rw [if_pos hl1] at h1'''
                        exact Except.noConfusion h1'''
                      · rw [if_neg hl1] at h1'''
                        by_cases hl2 : b2 < 0 ∨ 1 < b2
                        · rw [if_pos hl2] at h2'''
                          exact Except.noConfusion h2'''
                        · rw [if_neg hl2] at h2'''
                          injection h1''' with e1
                          injection h2''' with e2
                          rw [← e1, ← e2]
                          have hx0 : 0 ≤ x := by
                            rw [not_or] at hx
                            exact le_of_not_lt hx.1
                          nlinarith [mul_nonneg (mul_nonneg (mul_nonneg hx0
                            (le_of_not_lt hy)) (le_of_not_lt hz))
                            (sub_nonneg.mpr hb)]

theorem calcSupportCostSavings_mono (args : List Value) (b1 b2 r1 r2 : ℚ)
    (hb : b1 ≤ b2)
    (h1 : calcSupportCostSavings args b1 = .ok r1)
    (h2 : calcSupportCostSavings args b2 = .ok r2) : r1 ≤ r2 := by
  cases args with
  | nil => exact Except.noConfusion h1
  | cons v tail =>
    cases tail with
    | nil => exact Except.noConfusion h1
    | cons w tail2 =>
      cases tail2 with
      | cons u tail3 => exact Except.noConfusion h1
      | nil =>
        cases v with
        | other msg => exact Except.noConfusion h1
        | num x =>
          have h1' : (if x < 0 then
                (Except.error "current_support_contacts cannot be negative" :
                  Except String ℚ)
              else (pyNum w).bind (fun cost_per_contact =>
                if cost_per_contact < 0 then
                  .error "cost_per_contact cannot be negative"
                else if b1 < 0 ∨ 1 < b1 then
                  .error "reduction_percentage must be 0-1.0"
                else .ok (x * b1 * cost_per_contact))) = .ok r1 := h1
          have h2' : (if x < 0 then
                (Except.error "current_support_contacts cannot be negative" :
                  Except String ℚ)
              else (pyNum w).bind (fun cost_per_contact =>
                if cost_per_contact < 0 then
                  .error "cost_per_contact cannot be negative"
                else if b2 < 0 ∨ 1 < b2 then
                  .error "reduction_percentage must be 0-1.0"
                else .ok (x * b2 * cost_per_contact))) = .ok r2 := h2
          by_cases hx : x < 0
          · rw [if_pos hx] at h1'
            exact Except.noConfusion h1'
          · rw [if_neg hx] at h1' h2'
            cases w with
            | other msg => exact Except.noConfusion h1'
            | num y =>
              have h1'' : (if y < 0 then
                    (Except.error "cost_per_contact cannot be negative" :
                      Except String ℚ)
                  else if b1 < 0 ∨ 1 < b1 then
                    .error "reduction_percentage must be 0-1.0"
                  else .ok (x * b1 * y)) = .ok r1 := h1'
              have h2'' : (if y < 0 then
                    (Except.error "cost_per_contact cannot be negative" :
                      Except String ℚ)
                  else if b2 < 0 ∨ 1 < b2 then
                    .error "reduction_percentage must be 0-1.0"
                  else .ok (x * b2 * y)) = .ok r2 := h2'
              by_cases hy : y < 0
              · rw [if_pos hy] at h1''
                exact Except.noConfusion h1''
              · rw [if_neg hy] at h1'' h2''
                by_cases hl1 : b1 < 0 ∨ 1 < b1
                · rw [if_pos hl1] at h1''
                  exact Except.noConfusion h1''
                · rw [if_neg hl1] at h1''
                  by_cases hl2 : b2 < 0 ∨ 1 < b2
                  · rw [if_pos hl2] at h2''
                    exact Except.noConfusion h2''
                  · rw [if_neg hl2] at h2''
                    injection h1'' with e1
                    injection h2'' with e2
                    rw [← e1, ← e2]
                    nlinarith [mul_nonneg (mul_nonneg (le_of_not_lt hx)
                      (le_of_not_lt hy)) (sub_nonneg.mpr hb)]

theorem calcNpsReferralRevenue_mono (args : List Value) (b1 b2 r1 r2 : ℚ)
    (hb : b1 ≤ b2)
    (h1 : calcNpsReferralRevenue args b1 = .ok r1)
    (h2 : calcNpsReferralRevenue args b2 = .ok r2) : r1 ≤ r2 := by
  cases args with
  | nil => exact Except.noConfusion h1
  | cons v tail =>
    cases tail with
    | cons w tail2 => exact Except.noConfusion h1
    | nil =>
      cases v with
      | other msg => exact Except.noConfusion h1
      | num x =>
        have h1' : (if x < 0 then
              (Except.error "annual_revenue cannot be negative" :
                Except String ℚ)
            else if b1 < 0 then
              .error "nps_point_improvement cannot be negative"
            else .ok (x * (b1 / 7) * (1/100))) = .ok r1 := h1
        have h2' : (if x < 0 then
              (Except.error "annual_revenue cannot be negative" :
                Except String ℚ)
            else if b2 < 0 then
              .error "nps_point_improvement cannot be negative"
            else .ok (x * (b2 / 7) * (1/100))) = .ok r2 := h2
        by_cases hx : x < 0
        · rw [if_pos hx] at h1'
          exact Except.noConfusion h1'
        · rw [if_neg hx] at h1' h2'
          by_cases hl1 : b1 < 0
          · rw [if_pos hl1] at h1'
            exact Except.noConfusion h1'
          · rw [if_neg hl1] at h1'
            by_cases hl2 : b2 < 0
            · rw [if_pos hl2] at h2'
              exact Except.noConfusion h2'
            · rw [if_neg hl2] at h2'
              injection h1' with e1
              injection h2' with e2
              rw [← e1, ← e2]
              nlinarith [mul_nonneg (le_of_not_lt hx) (sub_nonneg.mpr hb)]

theorem registry_formula_mono (kid : String) (kdef : KPIDefinition)
    (h : registryGet kid = some kdef) :
    ∀ (args : List Value) (b1 b2 r1 r2 : ℚ), b1 ≤ b2 →
      kdef.formula_fn args b1 = .ok r1 →
      kdef.formula_fn args b2 = .ok r2 → r1 ≤ r2 := by
  unfold registryGet at h
  split_ifs at h <;>
    first
    | exact Option.noConfusion h
    | (injection h with h2
       rw [← h2]
       intro args b1 b2 r1 r2 hb h1 h2'
       first
       | exact calcConversionRateLift_mono args b1 b2 r1 r2 hb h1 h2'
       | exact calcAovIncrease_mono args b1 b2 r1 r2 hb h1 h2'
       | exact calcChurnReduction_mono args b1 b2 r1 r2 hb h1 h2'
       | exact calcSupportCostSavings_mono args b1 b2 r1 r2 hb h1 h2'
       | exact calcNpsReferralRevenue_mono args b1 b2 r1 r2 hb h1 h2')

theorem sampleCfg_valid : methodologyValid sampleCfg := by
  unfold methodologyValid sampleCfg sampleKpiCfg enabledKpis registryGet
  refine ⟨?_, ?_, ?_, ?_, ?_, ?_, ?_, ?_, ?_, ?_, ?_, ?_, ?_, ?_⟩ <;>
    first
    | (norm_num [List.chain'_cons, List.chain'_singleton, List.forall_mem_cons,
        List.forall_mem_singleton, sub_self, abs_zero]; done)
    | (simp; norm_num)
    | simp

theorem outOfRangeCfg_valid : methodologyValid outOfRangeCfg := by
  unfold methodologyValid outOfRangeCfg outOfRangeKpiCfg enabledKpis registryGet
  refine ⟨?_, ?_, ?_, ?_, ?_, ?_, ?_, ?_, ?_, ?_, ?_, ?_, ?_, ?_⟩ <;>
    first
    | (norm_num [List.chain'_cons, List.chain'_singleton, List.forall_mem_cons,
        List.forall_mem_singleton, sub_self, abs_zero]; done)
    | (simp; norm_num)
    | simp

theorem cfgWithDisabled_valid : methodologyValid cfgWithDisabled := by
  unfold methodologyValid cfgWithDisabled sampleKpiCfg disabledKpiCfg
    enabledKpis registryGet
  refine ⟨?_, ?_, ?_, ?_, ?_, ?_, ?_, ?_, ?_, ?_, ?_, ?_, ?_, ?_⟩ <;>
    first
    | (norm_num [List.chain'_cons, List.chain'_singleton, List.forall_mem_cons,
        List.forall_mem_singleton, sub_self, abs_zero]; done)
    | (simp; norm_num)
    | simp

theorem recOnlineOnly_engagement_numeric :
    ∀ dp, recOnlineOnly.data FieldName.engagement_cost = some dp →
      ∃ q, dp.value = Value.num q :=
  fun _ h => Option.noConfusion h

theorem sampleRec_engagement_numeric :
    ∀ dp, sampleRec.data FieldName.engagement_cost = some dp →
      ∃ q, dp.value = Value.num q := by
  intro dp h
  injection h with h2
  exact ⟨50, by rw [← h2]; rfl⟩

end EngineLemmas

/-- C2 counterexample: a validated methodology and a record whose
`engagement_cost` `DataPoint` carries a (perfectly representable)
non-numeric string value make `calculate` raise a `TypeError` from the
`engagement_cost_dp.value > 0` comparison, which sits outside every `try`
block — so `calculate` does not return a `CalculationResult` for every
record. -/
theorem calculate_raises_on_nonnumeric_engagement_cost :
    methodologyValid sampleCfg ∧
    (calculate recStringCost sampleCfg).map (fun _ => true) =
      Except.error engagementTypeErrorMsg := by
  refine ⟨sampleCfg_valid, ?_⟩
  have h1 : runScenario recStringCost sampleCfg .conservative =
      Except.error engagementTypeErrorMsg := by
    unfold runScenario
    rfl
  unfold calculate
  rw [h1]
  rfl

/-- C2 (amended): for every record whose `engagement_cost` value, when
present, is numeric, and every validated methodology, `calculate` returns a
`CalculationResult` (never raises), with one audit entry list per scenario;
a required input missing from the record yields a skipped entry whose reason
names the missing fields, and a formula exception is caught and becomes a
skipped entry carrying the error message — no formula exception propagates
out of `calculate`. -/
theorem calculate_total_and_skip_semantics
    (rec : CompanyData) (cfg : MethodologyConfig)
    (hv : methodologyValid cfg)
    (hec : ∀ dp, rec.data FieldName.engagement_cost = some dp →
      ∃ q, dp.value = Value.num q) :
    (∃ res, calculate rec cfg = .ok res ∧
      ∀ s, (res.scenarios s).kpi_results = scenEntries rec cfg s) ∧
    (∀ (k : KPIConfig) (s : Scenario) (kdef : KPIDefinition)
       (f0 : FieldName) (rest : List FieldName),
      registryGet k.id = some kdef →
      (gatherInputs rec kdef.required_inputs).2 = f0 :: rest →
      (calcSingleKpi rec k cfg s).skipped = true ∧
      (calcSingleKpi rec k cfg s).skip_reason =
        some (missingMsg (f0 :: rest))) ∧
    (∀ (k : KPIConfig) (s : Scenario) (kdef : KPIDefinition) (e : String),
      registryGet k.id = some kdef →
      (gatherInputs rec kdef.required_inputs).2 = [] →
      kdef.formula_fn
        ((gatherInputs rec kdef.required_inputs).1.map (fun p => p.2.value))
        (benchmarkFor k.benchmark_ranges s) = .error e →
      (calcSingleKpi rec k cfg s).skipped = true ∧
      (calcSingleKpi rec k cfg s).skip_reason =
        some ("Formula error: " ++ e)) := by
  refine ⟨?_, ?_, ?_⟩
  · obtain ⟨res, hok⟩ := calculate_ok_of_engagement_numeric rec cfg hec
    refine ⟨res, hok, fun s => ?_⟩
    exact (runScenario_ok rec cfg s _ (calculate_ok rec cfg res hok s)).1
  · intro k s kdef f0 rest hreg hm
    rw [calcSingleKpi_missing rec k cfg s kdef hreg f0 rest hm]
    exact ⟨rfl, rfl⟩
  · intro k s kdef e hreg hm hf
    rw [calcSingleKpi_formula_error rec k cfg s kdef hreg hm e hf]
    exact ⟨rfl, rfl⟩

/-- C2 witness: the amended theorem applied to a concrete record with a
numeric engagement cost and a concrete validated methodology. -/
theorem calculate_total_witness :
    methodologyValid sampleCfg ∧
    (∃ res, calculate sampleRec sampleCfg = Except.ok res) := by
  refine ⟨sampleCfg_valid, ?_⟩
  obtain ⟨⟨res, hok, _⟩, _, _⟩ :=
    calculate_total_and_skip_semantics sampleRec sampleCfg sampleCfg_valid
      sampleRec_engagement_numeric
  exact ⟨res, hok⟩

/-- C9 counterexample: a validated methodology with two configured KPIs, one
of them disabled, yields scenario results with a single audit entry — the
engine iterates `enabled_kpis()`, not the configured KPI list. -/
theorem scenario_entry_count_cex :
    methodologyValid cfgWithDisabled ∧
    cfgWithDisabled.kpis.length = 2 ∧
    (calculate recOnlineOnly cfgWithDisabled).map
      (fun r => (r.scenarios .conservative).kpi_results.length) =
      Except.ok 1 ∧
    (1 : Nat) ≠ 2 := by
  refine ⟨cfgWithDisabled_valid, rfl, ?_, by decide⟩
  obtain ⟨res, hok⟩ := calculate_ok_of_engagement_numeric recOnlineOnly
    cfgWithDisabled recOnlineOnly_engagement_numeric
  rw [hok]
  show Except.ok ((res.scenarios .conservative).kpi_results.length) =
    Except.ok 1
  rw [(runScenario_ok recOnlineOnly cfgWithDisabled .conservative _
    (calculate_ok recOnlineOnly cfgWithDisabled res hok .conservative)).1]
  rfl

/-- C9 (amended): each `ScenarioResult` holds exactly one `KPIAuditEntry`
per *enabled* KPI of the methodology, in configuration order and with
matching ids (disabled `KPIConfig` entries produce none), and the ids of the
skipped entries are collected, in order, into `skipped_kpis`. -/
theorem scenario_one_entry_per_enabled_kpi
    (rec : CompanyData) (cfg : MethodologyConfig) (s : Scenario)
    (r : ScenarioResult) (h : runScenario rec cfg s = .ok r) :
    r.kpi_results.length = (enabledKpis cfg).length ∧
    (∀ (i : Nat) (k : KPIConfig), (enabledKpis cfg)[i]? = some k →
      ∃ e, r.kpi_results[i]? = some e ∧ e.kpi_id = k.id) ∧
    r.skipped_kpis =
      (r.kpi_results.filter (fun e => e.skipped)).map (fun e => e.kpi_id) := by
  obtain ⟨hk, _, _, _, _, hsk, _⟩ := runScenario_ok rec cfg s r h
  refine ⟨?_, ?_, ?_⟩
  · rw [hk]
    unfold scenEntries
    rw [List.length_map]
  · intro i k hik
    rw [hk]
    unfold scenEntries
    rw [List.getElem?_map, hik]
    exact ⟨_, rfl, calcSingleKpi_id rec k cfg s⟩
  · rw [hsk, hk]
    rfl

/-- C9 witness: the per-enabled-KPI entry theorem applied to a concrete
record and methodology. -/
theorem scenario_one_entry_witness :
    ∃ r, runScenario sampleRec sampleCfg .conservative = Except.ok r ∧
      r.kpi_results.length = (enabledKpis sampleCfg).length := by
  obtain ⟨r, hr⟩ := runScenario_total sampleRec sampleCfg .conservative
    sampleRec_engagement_numeric
  exact ⟨r, hr,
    (scenario_one_entry_per_enabled_kpi sampleRec sampleCfg .conservative r
      hr).1⟩

/-- C3: for a non-skipped KPI evaluation the confidence multiplier is the
minimum of the methodology discounts over the confidence tiers of the
gathered input `DataPoint`s (characterised as a member of the discount list
that bounds every member from below), the methodology `estimated` discount
when there are zero inputs, and the audit entry satisfies
`adjusted_impact = raw_impact × confidence_multiplier` and
`weighted_impact = adjusted_impact × weight`. -/
theorem confidence_discount_min_and_impact_products
    (rec : CompanyData) (kcfg : KPIConfig) (cfg : MethodologyConfig)
    (s : Scenario) (kdef : KPIDefinition)
    (hreg : registryGet kcfg.id = some kdef)
    (hns : (calcSingleKpi rec kcfg cfg s).skipped = false) :
    ((gatherInputs rec kdef.required_inputs).1 = [] →
      (calcSingleKpi rec kcfg cfg s).confidence_discount =
        cfg.confidence_discounts.estimated) ∧
    ((gatherInputs rec kdef.required_inputs).1 ≠ [] →
      ((calcSingleKpi rec kcfg cfg s).confidence_discount ∈
        (gatherInputs rec kdef.required_inputs).1.map
          (fun p => cfg.confidence_discounts.getDiscount p.2.confidence_tier) ∧
       ∀ x ∈ (gatherInputs rec kdef.required_inputs).1.map
          (fun p => cfg.confidence_discounts.getDiscount p.2.confidence_tier),
        (calcSingleKpi rec kcfg cfg s).confidence_discount ≤ x)) ∧
    (calcSingleKpi rec kcfg cfg s).adjusted_impact =
      (calcSingleKpi rec kcfg cfg s).raw_impact *
        (calcSingleKpi rec kcfg cfg s).confidence_discount ∧
    (calcSingleKpi rec kcfg cfg s).weighted_impact =
      (calcSingleKpi rec kcfg cfg s).adjusted_impact * kcfg.weight := by
  obtain ⟨kdef2, raw, hreg2, hm, hf, hraw, hcd, hadj, hw⟩ :=
    calcSingleKpi_not_skipped rec kcfg cfg s hns
  have hkd : kdef = kdef2 := by
    rw [hreg] at hreg2
    injection hreg2
  subst hkd
  refine ⟨?_, ?_, ?_, hw⟩
  · intro hnil
    rw [hcd, hnil]
    rfl
  · intro hne
    rw [hcd]
    have hspec := computeConfidence_spec
      ((gatherInputs rec kdef.required_inputs).1.map (fun p => p.2)) cfg
      (fun hcon => hne (List.map_eq_nil.mp hcon))
    constructor
    · have hmem := hspec.1
      rw [List.map_map] at hmem
      exact hmem
    · intro x hx
      apply hspec.2
      rw [List.map_map]
      exact hx
  · rw [hadj, hraw]

/-- C3 witness: the confidence-multiplier theorem applied to a concrete
record with one company-reported input. -/
theorem confidence_discount_witness :
    registryGet sampleKpiCfg.id = some conversionRateLiftDef ∧
    (calcSingleKpi sampleRec sampleKpiCfg sampleCfg .conservative).skipped =
      false ∧
    (calcSingleKpi sampleRec sampleKpiCfg
        sampleCfg .conservative).adjusted_impact =
      (calcSingleKpi sampleRec sampleKpiCfg
        sampleCfg .conservative).raw_impact *
      (calcSingleKpi sampleRec sampleKpiCfg
        sampleCfg .conservative).confidence_discount := by
  have hreg : registryGet sampleKpiCfg.id = some conversionRateLiftDef := rfl
  have hform : conversionRateLiftDef.formula_fn
      ((gatherInputs sampleRec conversionRateLiftDef.required_inputs).1.map
        (fun p => p.2.value))
      (benchmarkFor sampleKpiCfg.benchmark_ranges .conservative) =
      .ok (100 * (1/10)) := by
    show (if (100:ℚ) < 0 then
        (Except.error "online_revenue cannot be negative" : Except String ℚ)
      else if (1:ℚ)/10 < 0 ∨ 1 < (1:ℚ)/10 then
        .error "lift_percentage must be 0-1.0"
      else .ok (100 * (1/10))) = .ok (100 * (1/10))
    rw [if_neg (by norm_num), if_neg (by norm_num)]
  have hns : (calcSingleKpi sampleRec sampleKpiCfg
      sampleCfg .conservative).skipped = false := by
    rw [calcSingleKpi_success sampleRec sampleKpiCfg sampleCfg .conservative
      conversionRateLiftDef hreg rfl _ hform]
  exact ⟨hreg, hns,
    (confidence_discount_min_and_impact_products sampleRec sampleKpiCfg
      sampleCfg .conservative conversionRateLiftDef hreg hns).2.2.1⟩

/-- C6: in an ok `ScenarioResult`, the ROI fields are set exactly when the
record carries an `engagement_cost` `DataPoint` with a strictly positive
numeric value, in which case
`roi_percentage = (total_unweighted − cost)/cost × 100` and
`roi_multiple = total_unweighted / cost`; with the cost absent, zero or
negative both fields stay `none`, distinguishable from a real 0. -/
theorem roi_iff_positive_engagement_cost
    (rec : CompanyData) (cfg : MethodologyConfig) (s : Scenario)
    (r : ScenarioResult) (h : runScenario rec cfg s = .ok r) :
    (rec.data FieldName.engagement_cost = none →
      r.roi_percentage = none ∧ r.roi_multiple = none) ∧
    (∀ (dp : DataPoint) (c : ℚ),
      rec.data FieldName.engagement_cost = some dp → dp.value = .num c →
      ((0 < c →
        r.roi_percentage =
          some ((r.total_annual_impact_unweighted - c) / c * 100) ∧
        r.roi_multiple = some (r.total_annual_impact_unweighted / c)) ∧
       (c ≤ 0 →
        r.roi_percentage = none ∧ r.roi_multiple = none))) := by
  have hroi := runScenario_roi rec cfg s r h
  have htot := (runScenario_ok rec cfg s r h).2.2.1
  refine ⟨fun hec => ⟨(hroi.1 hec).1, (hroi.1 hec).2.1⟩, ?_⟩
  intro dp c hec hv
  refine ⟨fun hc => ?_, fun hc =>
    ⟨((hroi.2 dp c hec hv).2 hc).1, ((hroi.2 dp c hec hv).2 hc).2.1⟩⟩
  have h1 := (hroi.2 dp c hec hv).1 hc
  rw [htot]
  exact ⟨h1.1, h1.2.1⟩

/-- C6 witness: the ROI theorem applied to a concrete record with a positive
numeric engagement cost of 50. -/
theorem roi_witness :
    ∃ r, runScenario sampleRec sampleCfg .conservative = Except.ok r ∧
      r.roi_percentage =
        some ((r.total_annual_impact_unweighted - 50) / 50 * 100) ∧
      r.roi_multiple = some (r.total_annual_impact_unweighted / 50) := by
  obtain ⟨r, hr⟩ := runScenario_total sampleRec sampleCfg .conservative
    sampleRec_engagement_numeric
  have h := (roi_iff_positive_engagement_cost sampleRec sampleCfg .conservative
    r hr).2 (mkDataPoint (.num 50) .company_reported) 50 rfl rfl
  exact ⟨r, hr, (h.1 (by norm_num)).1, (h.1 (by norm_num)).2⟩

/-- C5: the scenario projections have exactly one entry per realization-curve
year; entry `i` (0-based index, 1-based `year`) carries the curve percentage
and `projected_impact = total_unweighted × curve[i]`; the cumulative column
satisfies the running-sum recurrence (0 before year 1); and
`cumulative_3yr_impact` equals the sum of all `projected_impact`, which is
exactly the final `cumulative_impact`. -/
theorem multi_year_projection_correct
    (rec : CompanyData) (cfg : MethodologyConfig) (s : Scenario)
    (r : ScenarioResult) (h : runScenario rec cfg s = .ok r) :
    r.year_projections.length = cfg.realization_curve.length ∧
    (∀ (i : Nat) (yp : YearProjection), r.year_projections[i]? = some yp →
      yp.year = i + 1 ∧
      cfg.realization_curve[i]? = some yp.realization_percentage ∧
      yp.projected_impact =
        r.total_annual_impact_unweighted * yp.realization_percentage) ∧
    (∀ yp, r.year_projections[0]? = some yp →
      yp.cumulative_impact = yp.projected_impact) ∧
    (∀ (i : Nat) (y1 y2 : YearProjection),
      r.year_projections[i]? = some y1 →
      r.year_projections[i + 1]? = some y2 →
      y2.cumulative_impact = y1.cumulative_impact + y2.projected_impact) ∧
    r.cumulative_3yr_impact =
      (r.year_projections.map (fun p => p.projected_impact)).sum ∧
    (∀ ylast, r.year_projections.getLast? = some ylast →
      ylast.cumulative_impact = r.cumulative_3yr_impact) := by
  obtain ⟨_, _, htot, hyp, hcum, _, _⟩ := runScenario_ok rec cfg s r h
  have hyp2 : r.year_projections =
      projectAux (scenTotalUnweighted rec cfg s) cfg.realization_curve 0 0 :=
    hyp
  refine ⟨?_, ?_, ?_, ?_, ?_, ?_⟩
  · rw [hyp2, projectAux_length]
  · intro i yp hget
    rw [hyp2, projectAux_getElem] at hget
    cases hci : cfg.realization_curve[i]? with
    | none => rw [hci] at hget; exact Option.noConfusion hget
    | some pct =>
      rw [hci, Option.map_some'] at hget
      injection hget with hget2
      rw [← hget2]
      refine ⟨?_, rfl, ?_⟩
      · show 0 + i + 1 = i + 1
        omega
      · rw [htot]
  · intro yp h0
    rw [hyp2, projectAux_getElem] at h0
    cases hc0 : cfg.realization_curve[0]? with
    | none => rw [hc0] at h0; exact Option.noConfusion h0
    | some p0 =>
      rw [hc0, Option.map_some'] at h0
      injection h0 with h0'
      rw [← h0']
      obtain ⟨hl, hv⟩ := List.getElem?_eq_some.mp hc0
      show 0 + scenTotalUnweighted rec cfg s *
          ((cfg.realization_curve.take (0 + 1)).sum) =
        scenTotalUnweighted rec cfg s * p0
      rw [cfg.realization_curve.sum_take_succ 0 hl, hv, List.take_zero,
        List.sum_nil]
      ring
  · intro i y1 y2 h1 h2
    rw [hyp2, projectAux_getElem] at h1 h2
    cases hc1 : cfg.realization_curve[i]? with
    | none => rw [hc1] at h1; exact Option.noConfusion h1
    | some p1 =>
      cases hc2 : cfg.realization_curve[i + 1]? with
      | none => rw [hc2] at h2; exact Option.noConfusion h2
      | some p2 =>
        rw [hc1, Option.map_some'] at h1
        rw [hc2, Option.map_some'] at h2
        injection h1 with h1'
        injection h2 with h2'
        rw [← h1', ← h2']
        show 0 + scenTotalUnweighted rec cfg s *
            ((cfg.realization_curve.take (i + 1 + 1)).sum) =
          0 + scenTotalUnweighted rec cfg s *
            ((cfg.realization_curve.take (i + 1)).sum) +
          scenTotalUnweighted rec cfg s * p2
        obtain ⟨hlen, hp2⟩ := List.getElem?_eq_some.mp hc2
        rw [cfg.realization_curve.sum_take_succ (i + 1) hlen, hp2]
        ring
  · rw [hcum, hyp2]
    rfl
  · intro ylast hlast
    rw [hyp2, List.getLast?_eq_getElem?, projectAux_length,
      projectAux_getElem] at hlast
    cases hcl : cfg.realization_curve[cfg.realization_curve.length - 1]? with
    | none => rw [hcl] at hlast; exact Option.noConfusion hlast
    | some pl =>
      rw [hcl, Option.map_some'] at hlast
      injection hlast with hlast'
      obtain ⟨hl, _⟩ := List.getElem?_eq_some.mp hcl
      have hnn : cfg.realization_curve.length - 1 + 1 =
          cfg.realization_curve.length := by omega
      rw [← hlast']
      show 0 + scenTotalUnweighted rec cfg s *
          ((cfg.realization_curve.take
            (cfg.realization_curve.length - 1 + 1)).sum) =
        r.cumulative_3yr_impact
      rw [hnn, List.take_length, hcum]
      have hmap : (scenYearProjections rec cfg s).map
          (fun p => p.projected_impact) =
          cfg.realization_curve.map
            (fun pct => scenTotalUnweighted rec cfg s * pct) :=
        projectAux_map_projected _ _ _ _
      rw [hmap, sum_map_mul]
      ring

/-- C5 witness: the projection theorem applied to a concrete scenario run
with a two-year curve. -/
theorem multi_year_projection_witness :
    ∃ r, runScenario sampleRec sampleCfg .conservative = Except.ok r ∧
      r.year_projections.length = sampleCfg.realization_curve.length := by
  obtain ⟨r, hr⟩ := runScenario_total sampleRec sampleCfg .conservative
    sampleRec_engagement_numeric
  exact ⟨r, hr,
    (multi_year_projection_correct sampleRec sampleCfg .conservative r hr).1⟩

theorem sum_filter_adjusted (l : List KPIAuditEntry) :
    ((l.filter (fun e => !e.skipped)).map (fun e => e.adjusted_impact)).sum =
      (l.map (fun e => if e.skipped then 0 else e.adjusted_impact)).sum := by
  induction l with
  | nil => rfl
  | cons e t ih =>
    cases he : e.skipped with
    | true => simp [List.filter_cons, he, ih]
    | false => simp [List.filter_cons, he, ih]

theorem scenTotalUnweighted_eq (rec : CompanyData) (cfg : MethodologyConfig)
    (s : Scenario) :
    scenTotalUnweighted rec cfg s =
      ((enabledKpis cfg).map (fun k =>
        if (calcSingleKpi rec k cfg s).skipped then 0
        else (calcSingleKpi rec k cfg s).adjusted_impact)).sum := by
  unfold scenTotalUnweighted scenEntries
  rw [sum_filter_adjusted, List.map_map]
  rfl

theorem discounts_nonneg_of_valid (cfg : MethodologyConfig)
    (hv : methodologyValid cfg) :
    ∀ t : DataSourceTier, 0 ≤ cfg.confidence_discounts.getDiscount t := by
  obtain ⟨-, -, -, -, -, h6, -, h8, -, h10, -, h12, -, -⟩ := hv
  intro t
  cases t
  · exact h6
  · exact h8
  · exact h10
  · exact h12

theorem scenTotalUnweighted_mono (rec : CompanyData) (cfg : MethodologyConfig)
    (hv : methodologyValid cfg)
    (hu : ∀ k ∈ enabledKpis cfg, ∀ s1 s2 : Scenario,
      (calcSingleKpi rec k cfg s1).skipped =
        (calcSingleKpi rec k cfg s2).skipped)
    (s1 s2 : Scenario)
    (hbench : ∀ k ∈ enabledKpis cfg,
      benchmarkFor k.benchmark_ranges s1 ≤ benchmarkFor k.benchmark_ranges s2) :
    scenTotalUnweighted rec cfg s1 ≤ scenTotalUnweighted rec cfg s2 := by
  rw [scenTotalUnweighted_eq, scenTotalUnweighted_eq]
  apply List.sum_le_sum
  intro k hk
  have hskip := hu k hk s1 s2
  cases h1 : (calcSingleKpi rec k cfg s1).skipped with
  | true =>
    have h2 : (calcSingleKpi rec k cfg s2).skipped = true := by
      rw [← hskip, h1]
    simp [h1, h2]
  | false =>
    have h2 : (calcSingleKpi rec k cfg s2).skipped = false := by
      rw [← hskip, h1]
    obtain ⟨kdef1, raw1, hreg1, hm1, hf1, hraw1, hcd1, hadj1, -⟩ :=
      calcSingleKpi_not_skipped rec k cfg s1 h1
    obtain ⟨kdef2, raw2, hreg2, hm2, hf2, hraw2, hcd2, hadj2, -⟩ :=
      calcSingleKpi_not_skipped rec k cfg s2 h2
    have hkd : kdef1 = kdef2 := by
      rw [hreg1] at hreg2
      injection hreg2
    subst hkd
    simp only [h1, h2, Bool.false_eq_true, if_false]
    rw [hadj1, hadj2, hcd1, hcd2]
    have hmono := registry_formula_mono k.id kdef1 hreg1
      ((gatherInputs rec kdef1.required_inputs).1.map (fun p => p.2.value))
      (benchmarkFor k.benchmark_ranges s1)
      (benchmarkFor k.benchmark_ranges s2) raw1 raw2 (hbench k hk) hf1 hf2
    have hnn : 0 ≤ computeConfidence
        ((gatherInputs rec kdef1.required_inputs).1.map (fun p => p.2)) cfg :=
      computeConfidence_nonneg cfg (discounts_nonneg_of_valid cfg hv) _
    exact mul_le_mul_of_nonneg_right hmono hnn

/-- C7 (amended): for a validated methodology (ordered benchmark ranges) and
a record for which each enabled KPI is skipped in either all three scenarios
or none, the unweighted scenario totals of one `calculate` call satisfy
conservative ≤ moderate ≤ aggressive.  The skip-uniformity proviso is what
the counterexample forces: a formula may reject only the higher benchmarks
(e.g. a lift above 1.0), zeroing the higher scenario while lower ones stay
positive. -/
theorem scenario_totals_monotone (rec : CompanyData) (cfg : MethodologyConfig)
    (res : CalculationResult)
    (hv : methodologyValid cfg)
    (hu : ∀ k ∈ enabledKpis cfg, ∀ s1 s2 : Scenario,
      (calcSingleKpi rec k cfg s1).skipped =
        (calcSingleKpi rec k cfg s2).skipped)
    (hok : calculate rec cfg = .ok res) :
    (res.scenarios .conservative).total_annual_impact_unweighted ≤
      (res.scenarios .moderate).total_annual_impact_unweighted ∧
    (res.scenarios .moderate).total_annual_impact_unweighted ≤
      (res.scenarios .aggressive).total_annual_impact_unweighted := by
  have hrun := calculate_ok rec cfg res hok
  have htot : ∀ s, (res.scenarios s).total_annual_impact_unweighted =
      scenTotalUnweighted rec cfg s :=
    fun s => (runScenario_ok rec cfg s _ (hrun s)).2.2.1
  have hkpis := hv.2.1
  have hbcm : ∀ k ∈ enabledKpis cfg,
      benchmarkFor k.benchmark_ranges .conservative ≤
        benchmarkFor k.benchmark_ranges .moderate := by
    intro k hk
    exact (hkpis k (List.mem_of_mem_filter hk)).2.2.2.1
  have hbma : ∀ k ∈ enabledKpis cfg,
      benchmarkFor k.benchmark_ranges .moderate ≤
        benchmarkFor k.benchmark_ranges .aggressive := by
    intro k hk
    exact (hkpis k (List.mem_of_mem_filter hk)).2.2.2.2.1
  constructor
  · rw [htot .conservative, htot .moderate]
    exact scenTotalUnweighted_mono rec cfg hv hu .conservative .moderate hbcm
  · rw [htot .moderate, htot .aggressive]
    exact scenTotalUnweighted_mono rec cfg hv hu .moderate .aggressive hbma

theorem outOfRange_total_moderate :
    scenTotalUnweighted recOnlineOnly outOfRangeCfg .moderate = 90 := by
  have hform : conversionRateLiftDef.formula_fn
      ((gatherInputs recOnlineOnly conversionRateLiftDef.required_inputs).1.map
        (fun p => p.2.value))
      (benchmarkFor outOfRangeKpiCfg.benchmark_ranges .moderate) =
      .ok (100 * (9/10)) := by
    show (if (100:ℚ) < 0 then
        (Except.error "online_revenue cannot be negative" : Except String ℚ)
      else if (9:ℚ)/10 < 0 ∨ 1 < (9:ℚ)/10 then
        .error "lift_percentage must be 0-1.0"
      else .ok (100 * (9/10))) = .ok (100 * (9/10))
    rw [if_neg (by norm_num), if_neg (by norm_num)]
  have hentry := calcSingleKpi_success recOnlineOnly outOfRangeKpiCfg
    outOfRangeCfg .moderate conversionRateLiftDef rfl rfl _ hform
  have hsc : scenEntries recOnlineOnly outOfRangeCfg .moderate =
      [calcSingleKpi recOnlineOnly outOfRangeKpiCfg outOfRangeCfg .moderate] :=
    rfl
  unfold scenTotalUnweighted
  rw [hsc, hentry]
  show 100 * (9/10) * computeConfidence
      ((gatherInputs recOnlineOnly conversionRateLiftDef.required_inputs).1.map
        (fun p => p.2)) outOfRangeCfg + 0 = 90
  have hcc : computeConfidence
      ((gatherInputs recOnlineOnly conversionRateLiftDef.required_inputs).1.map
        (fun p => p.2)) outOfRangeCfg = 1 := rfl
  rw [hcc]
  norm_num

theorem outOfRange_total_aggressive :
    scenTotalUnweighted recOnlineOnly outOfRangeCfg .aggressive = 0 := by
  have hform : conversionRateLiftDef.formula_fn
      ((gatherInputs recOnlineOnly conversionRateLiftDef.required_inputs).1.map
        (fun p => p.2.value))
      (benchmarkFor outOfRangeKpiCfg.benchmark_ranges .aggressive) =
      .error "lift_percentage must be 0-1.0" := by
    show (if (100:ℚ) < 0 then
        (Except.error "online_revenue cannot be negative" : Except String ℚ)
      else if (3:ℚ)/2 < 0 ∨ 1 < (3:ℚ)/2 then
        .error "lift_percentage must be 0-1.0"
      else .ok (100 * (3/2))) = .error "lift_percentage must be 0-1.0"
    rw [if_neg (by norm_num), if_pos (by norm_num)]
  have hentry := calcSingleKpi_formula_error recOnlineOnly outOfRangeKpiCfg
    outOfRangeCfg .aggressive conversionRateLiftDef rfl rfl _ hform
  have hsc : scenEntries recOnlineOnly outOfRangeCfg .aggressive =
      [calcSingleKpi recOnlineOnly outOfRangeKpiCfg
        outOfRangeCfg .aggressive] := rfl
  unfold scenTotalUnweighted
  rw [hsc, hentry]
  rfl

/-- C7 counterexample: a methodology that passes validation, with strictly
increasing benchmarks (0.5 < 0.9 < 1.5) and a record with a valid online
revenue, for which the moderate unweighted total is 90 while the aggressive
total is 0 — the aggressive lift of 1.5 violates the formula domain, the
KPI is skipped only there, and monotonicity fails. -/
theorem scenario_totals_monotone_cex :
    methodologyValid outOfRangeCfg ∧
    outOfRangeKpiCfg.benchmark_ranges.conservative <
      outOfRangeKpiCfg.benchmark_ranges.moderate ∧
    outOfRangeKpiCfg.benchmark_ranges.moderate <
      outOfRangeKpiCfg.benchmark_ranges.aggressive ∧
    (calculate recOnlineOnly outOfRangeCfg).map
      (fun r => (r.scenarios .moderate).total_annual_impact_unweighted) =
      Except.ok 90 ∧
    (calculate recOnlineOnly outOfRangeCfg).map
      (fun r => (r.scenarios .aggressive).total_annual_impact_unweighted) =
      Except.ok 0 ∧
    ¬ ((90:ℚ) ≤ 0) := by
  obtain ⟨res, hok⟩ := calculate_ok_of_engagement_numeric recOnlineOnly
    outOfRangeCfg recOnlineOnly_engagement_numeric
  have hrun := calculate_ok recOnlineOnly outOfRangeCfg res hok
  refine ⟨outOfRangeCfg_valid, by norm_num [outOfRangeKpiCfg],
    by norm_num [outOfRangeKpiCfg], ?_, ?_, by norm_num⟩
  · rw [hok]
    show Except.ok
      ((res.scenarios .moderate).total_annual_impact_unweighted) =
      Except.ok 90
    rw [(runScenario_ok recOnlineOnly outOfRangeCfg .moderate _
      (hrun .moderate)).2.2.1, outOfRange_total_moderate]
  · rw [hok]
    show Except.ok
      ((res.scenarios .aggressive).total_annual_impact_unweighted) =
      Except.ok 0
    rw [(runScenario_ok recOnlineOnly outOfRangeCfg .aggressive _
      (hrun .aggressive)).2.2.1, outOfRange_total_aggressive]

theorem sample_no_skip (s : Scenario) :
    (calcSingleKpi sampleRec sampleKpiCfg sampleCfg s).skipped = false := by
  have hform : conversionRateLiftDef.formula_fn
      ((gatherInputs sampleRec conversionRateLiftDef.required_inputs).1.map
        (fun p => p.2.value))
      (benchmarkFor sampleKpiCfg.benchmark_ranges s) =
      .ok (100 * benchmarkFor sampleKpiCfg.benchmark_ranges s) := by
    cases s with
    | conservative =>
      show (if (100:ℚ) < 0 then
          (Except.error "online_revenue cannot be negative" : Except String ℚ)
        else if (1:ℚ)/10 < 0 ∨ 1 < (1:ℚ)/10 then
          .error "lift_percentage must be 0-1.0"
        else .ok (100 * (1/10))) = .ok (100 * (1/10))
      rw [if_neg (by norm_num), if_neg (by norm_num)]
    | moderate =>
      show (if (100:ℚ) < 0 then
          (Except.error "online_revenue cannot be negative" : Except String ℚ)
        else if (2:ℚ)/10 < 0 ∨ 1 < (2:ℚ)/10 then
          .error "lift_percentage must be 0-1.0"
        else .ok (100 * (2/10))) = .ok (100 * (2/10))
      rw [if_neg (by norm_num), if_neg (by norm_num)]
    | aggressive =>
      show (if (100:ℚ) < 0 then
          (Except.error "online_revenue cannot be negative" : Except String ℚ)
        else if (3:ℚ)/10 < 0 ∨ 1 < (3:ℚ)/10 then
          .error "lift_percentage must be 0-1.0"
        else .ok (100 * (3/10))) = .ok (100 * (3/10))
      rw [if_neg (by norm_num), if_neg (by norm_num)]
  rw [calcSingleKpi_success sampleRec sampleKpiCfg sampleCfg s
    conversionRateLiftDef rfl rfl _ hform]

/-- C7 witness: the monotonicity theorem applied to a concrete record and a
validated methodology on which no KPI is skipped in any scenario. -/
theorem scenario_totals_monotone_witness :
    methodologyValid sampleCfg ∧
    ∃ res, calculate sampleRec sampleCfg = Except.ok res ∧
      (res.scenarios .conservative).total_annual_impact_unweighted ≤
        (res.scenarios .moderate).total_annual_impact_unweighted ∧
      (res.scenarios .moderate).total_annual_impact_unweighted ≤
        (res.scenarios .aggressive).total_annual_impact_unweighted := by
  refine ⟨sampleCfg_valid, ?_⟩
  obtain ⟨res, hok⟩ := calculate_ok_of_engagement_numeric sampleRec sampleCfg
    sampleRec_engagement_numeric
  have hu : ∀ k ∈ enabledKpis sampleCfg, ∀ s1 s2 : Scenario,
      (calcSingleKpi sampleRec k sampleCfg s1).skipped =
        (calcSingleKpi sampleRec k sampleCfg s2).skipped := by
    intro k hk s1 s2
    have hkk : k = sampleKpiCfg := by
      have hek : enabledKpis sampleCfg = [sampleKpiCfg] := rfl
      rw [hek] at hk
      simpa using hk
    subst hkk
    rw [sample_no_skip s1, sample_no_skip s2]
  exact ⟨res, hok,
    scenario_totals_monotone sampleRec sampleCfg res sampleCfg_valid hu hok⟩

end ROICase
